import Mathlib

/-!
Verification development for the `minescene_graphs` diorama ray tracer.

The Rust sources are shallowly embedded over exact rationals: `f32` scalars
become `ℚ`, the `f32` infinities used as loop sentinels become the bottom and
top elements of `WithBot (WithTop ℚ)`, and `u8` color channels become
`Fin 256`.  Square roots (used only by `refract`, vector normalization and
point distance) are not rational, so every definition that needs one takes an
explicit `sqrtq : ℚ → ℚ` parameter standing for the machine square-root
routine; all theorems hold for every such parameter, and concrete evaluations
instantiate it with `Rat.sqrt`.
-/

set_option maxRecDepth 100000

set_option maxHeartbeats 1600000

/-- Exact stand-in for an `f32` scalar. -/
abbrev Q := ℚ

/-- `f32` extended with the two infinities (`f32::NEG_INFINITY` is `⊥`,
`f32::INFINITY` is `⊤`), ordered as IEEE orders non-NaN floats. -/
abbrev XQ := WithBot (WithTop ℚ)

/-- Embeds a finite scalar into `XQ`. -/
def fq (q : ℚ) : XQ := ((q : WithTop ℚ) : XQ)

/-- The finite value carried by an `XQ`, defaulting to `0` on the two
infinities (every code path below reads an `XQ` back only after a comparison
that rules the infinities out). -/
def xqVal : XQ → ℚ
  | some (some q) => q
  | _ => 0

/-- `nalgebra_glm::Vec3` with exact rational components. -/
structure Vec3Q where
  x : ℚ
  y : ℚ
  z : ℚ
deriving DecidableEq

def vadd (a b : Vec3Q) : Vec3Q := ⟨a.x + b.x, a.y + b.y, a.z + b.z⟩

def vsub (a b : Vec3Q) : Vec3Q := ⟨a.x - b.x, a.y - b.y, a.z - b.z⟩

def vsmul (s : ℚ) (a : Vec3Q) : Vec3Q := ⟨s * a.x, s * a.y, s * a.z⟩

def vneg (a : Vec3Q) : Vec3Q := ⟨-a.x, -a.y, -a.z⟩

def dotv (a b : Vec3Q) : ℚ := a.x * b.x + a.y * b.y + a.z * b.z

/-- `f32::clamp`: `min (max q lo) hi`. -/
def clampQ (q lo hi : ℚ) : ℚ := min (max q lo) hi

/-- `nalgebra_glm::normalize`, with the square root supplied as `sqrtq`. -/
def normalizeW (sqrtq : ℚ → ℚ) (v : Vec3Q) : Vec3Q :=
  vsmul (1 / sqrtq (dotv v v)) v

/-- `nalgebra_glm::distance`, with the square root supplied as `sqrtq`. -/
def distW (sqrtq : ℚ → ℚ) (a b : Vec3Q) : ℚ :=
  sqrtq (dotv (vsub a b) (vsub a b))

/-- Modelled from the spec: `color.rs` is not among the sources.  A `Color`
is an RGB triple of byte channels (`u8` in Rust, `Fin 256` here); §4.4 of the
spec states that all channel values are clamped to [0,255] before being
written. -/
structure Color where
  r : Fin 256
  g : Fin 256
  b : Fin 256
deriving DecidableEq

/-- Modelled from the spec: `Color::new(r, g, b)` packs three byte channels. -/
def Color.new (r g b : Fin 256) : Color := ⟨r, g, b⟩

/-- The saturating `expr as u8` cast Rust applies to an `f32`: truncate toward
zero and clamp into [0, 255]. -/
def f32ToU8 (q : ℚ) : Fin 256 :=
  ⟨min (max 0 ⌊q⌋).toNat 255, Nat.lt_succ_of_le (Nat.min_le_right _ _)⟩

/-- `MaterialType` from `material.rs`. -/
inductive MaterialType where
  | Grass | Dirt | Stone | Water | Lava | Wood | Glass
  | Metal | Obsidian | Sand | Leaves | Crystal | Cactus
deriving DecidableEq

/-- `Material` from `material.rs`; `albedo: [f32; 2]` becomes a pair. -/
structure Material where
  diffuse : Color
  specular : ℚ
  albedo : ℚ × ℚ
  refractive_index : ℚ
  has_texture : Bool
  material_type : MaterialType
deriving DecidableEq

def Material.grass_top : Material :=
  ⟨Color.new 50 180 50, 8, (85/100, 15/100), 1, true, MaterialType.Grass⟩

def Material.dirt_layer : Material :=
  ⟨Color.new 160 100 50, 3, (9/10, 1/10), 1, true, MaterialType.Dirt⟩

def Material.stone_layer : Material :=
  ⟨Color.new 90 90 95, 15, (7/10, 3/10), 1, true, MaterialType.Stone⟩

def Material.water_surface : Material :=
  ⟨Color.new 30 110 220, 100, (6/10, 4/10), 133/100, true, MaterialType.Water⟩

def Material.lava_surface : Material :=
  ⟨Color.new 255 80 0, 15, (8/10, 2/10), 1, true, MaterialType.Lava⟩

def Material.obsidian_block : Material :=
  ⟨Color.new 20 18 30, 50, (8/10, 2/10), 1, true, MaterialType.Obsidian⟩

def Material.stone_wall : Material :=
  ⟨Color.new 105 105 105, 5, (9/10, 1/10), 1, true, MaterialType.Stone⟩

def Material.leaves_block : Material :=
  ⟨Color.new 60 160 70, 10, (9/10, 1/10), 1, true, MaterialType.Leaves⟩

def Material.wood_block : Material :=
  ⟨Color.new 140 100 60, 10, (9/10, 1/10), 1, true, MaterialType.Wood⟩

def Material.sand_top : Material :=
  ⟨Color.new 235 220 170, 10, (9/10, 1/10), 1, true, MaterialType.Sand⟩

def Material.crystal_block : Material :=
  ⟨Color.new 180 220 255, 110, (2/10, 8/10), 145/100, true, MaterialType.Crystal⟩

def Material.clear_glass : Material :=
  ⟨Color.new 255 255 255, 125, (1/10, 9/10), 15/10, false, MaterialType.Glass⟩

def Material.cactus_block : Material :=
  ⟨Color.new 80 170 80, 5, (95/100, 5/100), 1, true, MaterialType.Cactus⟩

def Material.metal_surface : Material :=
  ⟨Color.new 192 192 192, 100, (4/10, 6/10), 1, false, MaterialType.Metal⟩

/-- `Material::is_emissive`: `matches!(self.material_type, Lava)`. -/
def Material.is_emissive (m : Material) : Bool :=
  match m.material_type with
  | MaterialType.Lava => true
  | _ => false

/-- `Material::is_transparent`: `matches!(self.material_type, Glass | Water)`. -/
def Material.is_transparent (m : Material) : Bool :=
  match m.material_type with
  | MaterialType.Glass => true
  | MaterialType.Water => true
  | _ => false

/-- `Material::is_reflective`:
`specular > 50.0 || matches!(self.material_type, Water | Metal | Obsidian)`. -/
def Material.is_reflective (m : Material) : Bool :=
  decide (50 < m.specular) ||
    (match m.material_type with
     | MaterialType.Water => true
     | MaterialType.Metal => true
     | MaterialType.Obsidian => true
     | _ => false)

/-- `Material::emission_intensity`. -/
def Material.emission_intensity (m : Material) : ℚ :=
  match m.material_type with
  | MaterialType.Lava => 4/10
  | _ => 0

def Color.black : Color := Color.new 0 0 0

/-- `Material::emission_color`. -/
def Material.emission_color (m : Material) : Color :=
  match m.material_type with
  | MaterialType.Lava => Color.new 255 150 50
  | _ => Color.black

/-- `Cube` from `cube.rs`: an axis-aligned box with corners `min`, `max`. -/
structure Cube where
  min : Vec3Q
  max : Vec3Q
  material : Material
deriving DecidableEq

/-- `Cube::new(center, size, material)`. -/
def Cube.new (center : Vec3Q) (size : ℚ) (material : Material) : Cube :=
  let half_size := size / 2
  { min := ⟨center.x - half_size, center.y - half_size, center.z - half_size⟩
    max := ⟨center.x + half_size, center.y + half_size, center.z + half_size⟩
    material := material }

/-- One axis of a slab test: the box bounds and the ray data on that axis. -/
structure SlabAxis where
  lo : ℚ
  hi : ℚ
  o : ℚ
  d : ℚ
deriving DecidableEq

/-- The body of the `for i in 0..3` loop of `Cube::ray_intersect` (also reused
verbatim by `OptimizedDiorama::ray_intersects_bbox`), processing the listed
axes in order while threading the running interval `[t_min, t_max]`; `none`
is the early `return None`. -/
def slabGo : List SlabAxis → XQ → XQ → Option (XQ × XQ)
  | [], tmin, tmax => some (tmin, tmax)
  | a :: rest, tmin, tmax =>
    if |a.d| < 1/1000000 then
      if a.o < a.lo ∨ a.hi < a.o then none
      else slabGo rest tmin tmax
    else
      let t1 := (a.lo - a.o) / a.d
      let t2 := (a.hi - a.o) / a.d
      let tNear := Min.min t1 t2
      let tFar := Max.max t1 t2
      let tmin' := Max.max tmin (fq tNear)
      let tmax' := Min.min tmax (fq tFar)
      if tmax' < tmin' then none
      else slabGo rest tmin' tmax'

/-- The three axes of a cube slab test, in the loop's order x, y, z. -/
def cubeAxes (c : Cube) (o d : Vec3Q) : List SlabAxis :=
  [⟨c.min.x, c.max.x, o.x, d.x⟩, ⟨c.min.y, c.max.y, o.y, d.y⟩,
   ⟨c.min.z, c.max.z, o.z, d.z⟩]

/-- `Cube::ray_intersect` (slab method; `t_min` starts at `NEG_INFINITY`,
`t_max` at `INFINITY`). -/
def Cube.ray_intersect (self : Cube) (ray_origin ray_direction : Vec3Q) :
    Option XQ :=
  match slabGo (cubeAxes self ray_origin ray_direction) ⊥ ⊤ with
  | none => none
  | some (tmin, tmax) =>
    if fq 0 < tmin then some tmin
    else if fq 0 < tmax then some tmax
    else none

/-- `Cube::get_normal`: sequential running-maximum scan over the three axes. -/
def Cube.get_normal (self : Cube) (point : Vec3Q) : Vec3Q :=
  let center := vsmul (1/2) (vadd self.min self.max)
  let size := vsub self.max self.min
  let p := vsub point center
  let c0 := |p.x / (size.x * (1/2))|
  let c1 := |p.y / (size.y * (1/2))|
  let c2 := |p.z / (size.z * (1/2))|
  let st0 : Vec3Q × ℚ := (⟨0, 0, 0⟩, 0)
  let st1 := if st0.2 < c0 then ((⟨if 0 < p.x then 1 else -1, 0, 0⟩ : Vec3Q), c0) else st0
  let st2 := if st1.2 < c1 then ((⟨0, if 0 < p.y then 1 else -1, 0⟩ : Vec3Q), c1) else st1
  let st3 := if st2.2 < c2 then ((⟨0, 0, if 0 < p.z then 1 else -1⟩ : Vec3Q), c2) else st2
  st3.1

/-- `Cube::get_uv_coordinates`. -/
def Cube.get_uv_coordinates (self : Cube) (point : Vec3Q) : ℚ × ℚ :=
  let center := vsmul (1/2) (vadd self.min self.max)
  let size := vsub self.max self.min
  let p := vsub point center
  let abs_x := |p.x / (size.x * (1/2))|
  let abs_y := |p.y / (size.y * (1/2))|
  let abs_z := |p.z / (size.z * (1/2))|
  let local_point := vsub point self.min
  if abs_y < abs_x ∧ abs_z < abs_x then
    (clampQ (local_point.z / size.z) 0 1, 1 - clampQ (local_point.y / size.y) 0 1)
  else if abs_x < abs_y ∧ abs_z < abs_y then
    (clampQ (local_point.x / size.x) 0 1, clampQ (local_point.z / size.z) 0 1)
  else
    (clampQ (local_point.x / size.x) 0 1, 1 - clampQ (local_point.y / size.y) 0 1)

/-- `Plane` from `main.rs` (the ground floor). -/
structure Plane where
  point : Vec3Q
  normal : Vec3Q
  material : Material
deriving DecidableEq

/-- `Plane::ray_intersect`. -/
def Plane.ray_intersect (self : Plane) (ray_origin ray_direction : Vec3Q) :
    Option ℚ :=
  let denom := dotv self.normal ray_direction
  if |denom| < 1/1000000 then none
  else
    let t := dotv (vsub self.point ray_origin) self.normal / denom
    if 1/1000 < t then some t else none

/-- `Plane::get_normal`. -/
def Plane.get_normal (self : Plane) (_point : Vec3Q) : Vec3Q := self.normal

/-- `Light` from `main.rs`. -/
structure Light where
  position : Vec3Q
  color : Color
  intensity : ℚ

/-- `OptimizedDiorama::in_oasis` (the hard-coded `grid_back` is 17). -/
def in_oasis (x z : ℕ) : Bool :=
  let grid_back := 17
  (8 ≤ x && x ≤ 10) && (grid_back - 3 ≤ z && z ≤ grid_back - 1)

/-- `OptimizedDiorama::in_lava_pond_a`. -/
def in_lava_pond_a (x z : ℕ) : Bool :=
  2 ≤ x && x ≤ 4 && 2 ≤ z && z ≤ 4

/-- `OptimizedDiorama::in_lava_pond_b` (note `6.min(5) = 5`). -/
def in_lava_pond_b (x z : ℕ) : Bool :=
  1 ≤ x && x ≤ 3 && 4 ≤ z && z ≤ Min.min 6 5

/-- `OptimizedDiorama::in_lava_pond_c`. -/
def in_lava_pond_c (x z grid_size : ℕ) : Bool :=
  2 ≤ x && x ≤ 4 && grid_size - 4 ≤ z && z ≤ grid_size - 2

/-- `OptimizedDiorama::in_any_lava_pond`. -/
def in_any_lava_pond (x z grid_size : ℕ) : Bool :=
  in_lava_pond_a x z || in_lava_pond_b x z || in_lava_pond_c x z grid_size

/-- The height `OptimizedDiorama::generate_terrain_heights` assigns to cell
`(x, z)` (`CORNER_X = 17`, `CORNER_Z = 12`).  The source compares the `f32`
square root of the integer `dx*dx + dz*dz` against `2.5` and `5.5`; since the
squared quantities are exactly representable, that is equivalent to comparing
the square against `6.25` and `30.25`, which is how it is written here. -/
def terrainHeight (grid_size x z : ℕ) : ℕ :=
  if x < 6 then
    if x = 0 ∨ z = 0 then 6
    else if x = 1 ∨ z = 1 then 5
    else if x = 2 ∨ z = 2 then 4
    else 3
  else if x < 12 then
    if in_oasis x z then 2 else 3
  else
    if x = 12 ∨ x = 13 then 3
    else
      let base := 4 + (x + 2 * z) % 2
      let dx : ℚ := ((x : ℤ) - 17).natAbs
      let dz : ℚ := ((z : ℤ) - 12).natAbs
      let distSq := dx * dx + dz * dz
      let bump := if distSq < 25/4 then 2 else if distSq < 121/4 then 1 else 0
      base + bump

/-- `OptimizedDiorama::generate_terrain_heights`: the `grid_size × grid_size`
grid of heights, indexed `[z][x]` exactly as the `Vec<Vec<usize>>` is (the
initial all-ones grid is fully overwritten by the double loop). -/
def generate_terrain_heights (grid_size : ℕ) : List (List ℕ) :=
  (List.range grid_size).map fun z =>
    (List.range grid_size).map fun x => terrainHeight grid_size x z

/-- `OptimizedDiorama::determine_material` (note the Rust precedence in the
oasis test: `in_oasis(x, z) && y_level == 1 || y_level == 2` groups as
`(in_oasis && y_level == 1) || y_level == 2`; the final `forest_zone` branch
of the source is dead code because `grass_zone` tests the same condition, so
the fall-through `stone_layer` is kept as the tail here). -/
def determine_material (x z y_level max_height : ℕ) : Material :=
  let lava_zone := x < 6
  let sand_zone := 6 ≤ x ∧ x < 12
  let grass_zone := 12 ≤ x
  if lava_zone then
    if y_level = 1 then Material.lava_surface
    else if in_any_lava_pond x z 18 && y_level = max_height then
      Material.lava_surface
    else if (x ≤ 2 ∨ z ≤ 2) ∧
        ((x + 2 * z + y_level) % 5 = 0 ∨ (3 * x + z) % 7 = 0) then
      Material.obsidian_block
    else Material.stone_layer
  else if sand_zone then
    if (in_oasis x z && y_level = 1) || y_level = 2 then Material.water_surface
    else if y_level = max_height then Material.sand_top
    else Material.stone_layer
  else if grass_zone then
    if y_level = max_height then Material.grass_top
    else if max_height - 1 ≤ y_level then Material.dirt_layer
    else Material.stone_layer
  else Material.stone_layer

/-- `OptimizedDiorama::should_place_cube` (the `x < 6` block returns `true` on
both of its paths; outside the oasis the function falls through to `true`). -/
def should_place_cube (x z y_level max_height grid_size : ℕ) : Bool :=
  if x < 6 then true
  else if 6 ≤ x && x < 12 && in_oasis x z then
    if y_level = 1 || y_level = 2 then true
    else if 2 ≤ y_level then false
    else true
  else true

/-- The world position of grid cell `(x, z)` at level `y`, with the
`offset = (grid_size * spacing) / 2 - spacing / 2` of `OptimizedDiorama::new`
(`spacing = cube_size`, grid 18). -/
def cellPos (center : Vec3Q) (s : ℚ) (x y z : ℚ) : Vec3Q :=
  let offset := (18 * s) / 2 - s / 2
  ⟨center.x + x * s - offset, center.y + y * s, center.z + z * s - offset⟩

/-- The terrain cubes of `OptimizedDiorama::new`, in push order: `z` outer,
`x` inner, levels `0..=height`, filtered through `should_place_cube`. -/
def terrainCubes (center : Vec3Q) (s : ℚ) : List Cube :=
  (List.range 18).flatMap fun z =>
    (List.range 18).flatMap fun x =>
      let height := terrainHeight 18 x z
      (List.range (height + 1)).filterMap fun (y_level : ℕ) =>
        if should_place_cube x z y_level height 18 then
          some (Cube.new (cellPos center s x y_level z) s
            (determine_material x z y_level height))
        else none

/-- Every position visited by the terrain loops of `OptimizedDiorama::new`
(including positions whose cube is filtered out): the bounding-box fold runs
over exactly these, before any fixed structure is placed. -/
def terrainPositions (center : Vec3Q) (s : ℚ) : List Vec3Q :=
  (List.range 18).flatMap fun z =>
    (List.range 18).flatMap fun x =>
      (List.range (terrainHeight 18 x z + 1)).map fun (y_level : ℕ) =>
        cellPos center s x y_level z

/-- The running-minimum loop of `OptimizedDiorama::new` on one coordinate. -/
def minFoldGo : List ℚ → XQ → XQ
  | [], acc => acc
  | q :: rest, acc => minFoldGo rest (Min.min acc (fq q))

/-- The running minimum of a coordinate list, from the `f32::INFINITY`
sentinel. -/
def minFold (l : List ℚ) : XQ := minFoldGo l ⊤

/-- The running-maximum loop, symmetric to `minFoldGo`. -/
def maxFoldGo : List ℚ → XQ → XQ
  | [], acc => acc
  | q :: rest, acc => maxFoldGo rest (Max.max acc (fq q))

/-- The running maximum of a coordinate list, from the `f32::NEG_INFINITY`
sentinel. -/
def maxFold (l : List ℚ) : XQ := maxFoldGo l ⊥

/-- `OptimizedDiorama::place_tree`: a 4-cube trunk at grid cell `(14, 13)`
from level 5, then a 3×3×3 canopy over levels 9–11 rounded by the Manhattan
condition `|dx| + dy + |dz| <= 3` (loop order `dz`, `dx`, `dy`). -/
def treeCubes (center : Vec3Q) (s : ℚ) : List Cube :=
  ((List.range 4).map fun (i : ℕ) =>
    Cube.new (cellPos center s 14 (5 + (i : ℚ)) 13) s Material.wood_block) ++
  (([-1, 0, 1] : List ℤ).flatMap fun dz =>
    ([-1, 0, 1] : List ℤ).flatMap fun dx =>
      ([0, 1, 2] : List ℤ).filterMap fun dy =>
        if dx.natAbs + dy.toNat + dz.natAbs ≤ 3 then
          some (Cube.new
            (cellPos center s ((14 + dx : ℤ) : ℚ) ((9 + dy : ℤ) : ℚ)
              ((13 + dz : ℤ) : ℚ)) s Material.leaves_block)
        else none)

/-- `OptimizedDiorama::place_crystal_details`: crystal pairs at cells `(2, 8)`
and `(3, 11)`, levels 3–4. -/
def crystalCubes (center : Vec3Q) (s : ℚ) : List Cube :=
  (([(2, 8), (3, 11)] : List (ℕ × ℕ)).flatMap fun c =>
    ([3, 4] : List ℕ).map fun (y : ℕ) =>
      Cube.new (cellPos center s (c.1 : ℚ) (y : ℚ) (c.2 : ℚ)) s
        Material.crystal_block)

/-- `OptimizedDiorama::place_overhang_roof`: a stone plate at level
`ROOF_Y = 7` over `x ∈ [0, 6)`, `z ∈ [0, 7)` (loop order `x` outer). -/
def roofCubes (center : Vec3Q) (s : ℚ) : List Cube :=
  (List.range 6).flatMap fun (x : ℕ) =>
    (List.range 7).map fun (z : ℕ) =>
      Cube.new (cellPos center s (x : ℚ) 7 (z : ℚ)) s Material.stone_layer

/-- `OptimizedDiorama::place_cactus`: two cactus cubes at cell `(9, 8)`,
levels 4–5. -/
def cactusCubes (center : Vec3Q) (s : ℚ) : List Cube :=
  ([4, 5] : List ℕ).map fun (y : ℕ) =>
    Cube.new (cellPos center s 9 (y : ℚ) 8) s Material.cactus_block

/-- `OptimizedDiorama` from `main.rs`. -/
structure OptimizedDiorama where
  cubes : List Cube
  water_planes : List Plane
  lava_planes : List Plane
  bounding_box_min : Vec3Q
  bounding_box_max : Vec3Q

/-- `OptimizedDiorama::new(center, cube_size)`: terrain cubes (bounding box
folded over every visited position, then padded by 2 on each side), followed
by the fixed structures in source order (tree, crystals, roof, cactus);
`add_water_areas` and `add_lava_areas` are no-ops, so both plane lists stay
empty.  The fold sentinels are stripped with `xqVal`; the grid is non-empty,
so they never survive to this point. -/
def OptimizedDiorama.new (center : Vec3Q) (cube_size : ℚ) : OptimizedDiorama :=
  let ps := terrainPositions center cube_size
  { cubes := terrainCubes center cube_size ++ treeCubes center cube_size ++
      crystalCubes center cube_size ++ roofCubes center cube_size ++
      cactusCubes center cube_size
    water_planes := []
    lava_planes := []
    bounding_box_min :=
      ⟨xqVal (minFold (ps.map Vec3Q.x)) - 2, xqVal (minFold (ps.map Vec3Q.y)) - 2,
       xqVal (minFold (ps.map Vec3Q.z)) - 2⟩
    bounding_box_max :=
      ⟨xqVal (maxFold (ps.map Vec3Q.x)) + 2, xqVal (maxFold (ps.map Vec3Q.y)) + 2,
       xqVal (maxFold (ps.map Vec3Q.z)) + 2⟩ }

/-- The per-cube loop of `OptimizedDiorama::ray_intersect_fast`, with the
running state `(closest_distance, closest_index)` and the early `break` once
an accepted distance drops below `0.1`. -/
def scanCubes (o d : Vec3Q) : List Cube → ℕ → XQ → Option ℕ → XQ × Option ℕ
  | [], _, closest, cidx => (closest, cidx)
  | c :: rest, i, closest, cidx =>
    match c.ray_intersect o d with
    | some t =>
      if fq (1/1000) < t ∧ t < closest then
        if t < fq (1/10) then (t, some i)
        else scanCubes o d rest (i + 1) t (some i)
      else scanCubes o d rest (i + 1) closest cidx
    | none => scanCubes o d rest (i + 1) closest cidx

/-- The three axes of the bounding-box slab test. -/
def bboxAxes (self : OptimizedDiorama) (o d : Vec3Q) : List SlabAxis :=
  [⟨self.bounding_box_min.x, self.bounding_box_max.x, o.x, d.x⟩,
   ⟨self.bounding_box_min.y, self.bounding_box_max.y, o.y, d.y⟩,
   ⟨self.bounding_box_min.z, self.bounding_box_max.z, o.z, d.z⟩]

/-- `OptimizedDiorama::ray_intersects_bbox`: the same slab loop as
`Cube::ray_intersect` (the source repeats the loop body verbatim), but the
result is just `t_max > 0.0`. -/
def OptimizedDiorama.ray_intersects_bbox (self : OptimizedDiorama)
    (ray_origin ray_direction : Vec3Q) : Bool :=
  match slabGo (bboxAxes self ray_origin ray_direction) ⊥ ⊤ with
  | none => false
  | some (_, tmax) => decide (fq 0 < tmax)

/-- `OptimizedDiorama::ray_intersect_fast`: bounding-box rejection, then the
linear scan `scanCubes`; a found index is returned with the final
`closest_distance` and object type tag `1`. -/
def OptimizedDiorama.ray_intersect_fast (self : OptimizedDiorama)
    (ray_origin ray_direction : Vec3Q) : Option (ℕ × XQ × ℕ) :=
  if ¬ self.ray_intersects_bbox ray_origin ray_direction then none
  else
    match scanCubes ray_origin ray_direction self.cubes 0 ⊤ none with
    | (dist, some idx) => some (idx, dist, 1)
    | (_, none) => none

/-- `OptimizedDiorama::ray_intersect_shadow_fast`: scans only the cubes at
even indices, reporting a hit strictly between `0.001` and `max_distance`. -/
def shadowScan (o d : Vec3Q) (max_distance : ℚ) : List Cube → ℕ → Bool
  | [], _ => false
  | c :: rest, i =>
    if i % 2 = 0 then
      match c.ray_intersect o d with
      | some t =>
        if fq (1/1000) < t ∧ t < fq max_distance then true
        else shadowScan o d max_distance rest (i + 1)
      | none => shadowScan o d max_distance rest (i + 1)
    else shadowScan o d max_distance rest (i + 1)

/-- `OptimizedDiorama::ray_intersect_shadow_fast`. -/
def OptimizedDiorama.ray_intersect_shadow_fast (self : OptimizedDiorama)
    (ray_origin ray_direction : Vec3Q) (max_distance : ℚ) : Bool :=
  shadowScan ray_origin ray_direction max_distance self.cubes 0

/-- A texture exposed through its `sample(u, v) -> Color` contract; the claims
quantify over all textures, so the pixel data behind `Texture::sample` is
abstracted into the sampling function itself. -/
def TextureFn : Type := ℚ → ℚ → Color

/-- `Skybox` from `main.rs`: one sampler per cube face. -/
structure Skybox where
  px : TextureFn
  nx : TextureFn
  py : TextureFn
  ny : TextureFn
  pz : TextureFn
  nz : TextureFn

/-- `Skybox::sample`. -/
def Skybox.sample (sqrtq : ℚ → ℚ) (self : Skybox) (direction : Vec3Q) : Color :=
  let dir := normalizeW sqrtq direction
  let abs_x := |dir.x|
  let abs_y := |dir.y|
  let abs_z := |dir.z|
  if abs_y ≤ abs_x ∧ abs_z ≤ abs_x then
    if 0 < dir.x then
      self.px ((-dir.z / abs_x + 1) * (1/2)) ((-dir.y / abs_x + 1) * (1/2))
    else
      self.nx ((dir.z / abs_x + 1) * (1/2)) ((-dir.y / abs_x + 1) * (1/2))
  else if abs_x ≤ abs_y ∧ abs_z ≤ abs_y then
    if 0 < dir.y then
      self.py ((dir.x / abs_y + 1) * (1/2)) ((dir.z / abs_y + 1) * (1/2))
    else
      self.ny ((dir.x / abs_y + 1) * (1/2)) ((-dir.z / abs_y + 1) * (1/2))
  else
    if 0 < dir.z then
      self.pz ((dir.x / abs_z + 1) * (1/2)) ((-dir.y / abs_z + 1) * (1/2))
    else
      self.nz ((-dir.x / abs_z + 1) * (1/2)) ((-dir.y / abs_z + 1) * (1/2))

/-- `sample_sky` from `main.rs`: scaled skybox lookup, or the two-band
vertical gradient fallback. -/
def sample_sky (sqrtq : ℚ → ℚ) (skybox : Option Skybox) (dir : Vec3Q) : Color :=
  match skybox with
  | some sb =>
    Skybox.sample sqrtq sb ⟨dir.x * (3/10), dir.y * (7/10), dir.z * (3/10)⟩
  | none =>
    if 1/10 < dir.y then
      let t := clampQ ((dir.y - 1/10) / (9/10)) 0 1
      Color.new (f32ToU8 (100 + t * 80)) (f32ToU8 (180 + t * 50)) 255
    else Color.new 120 160 200

/-- `reflect` from `main.rs`. -/
def reflect (dir normal : Vec3Q) : Vec3Q :=
  vsub dir (vsmul (2 * dotv dir normal) normal)

/-- `refract` from `main.rs` (Snell refraction with entering/exiting branch;
`none` is total internal reflection). -/
def refract (sqrtq : ℚ → ℚ) (incident normal : Vec3Q) (eta : ℚ) :
    Option Vec3Q :=
  let cosi0 := clampQ (dotv incident normal) (-1) 1
  let cosi := if cosi0 < 0 then -cosi0 else cosi0
  let etai := if cosi0 < 0 then (1 : ℚ) else eta
  let etat := if cosi0 < 0 then eta else 1
  let n := if cosi0 < 0 then normal else vneg normal
  let etaR := etai / etat
  let k := 1 - etaR * etaR * (1 - cosi * cosi)
  if k < 0 then none
  else some (vadd (vsmul etaR incident) (vsmul (etaR * cosi - sqrtq k) n))

/-- `fresnel` from `main.rs` (Schlick approximation, branching on the sign of
the clamped cosine). -/
def fresnel (incident normal : Vec3Q) (ior : ℚ) : ℚ :=
  let cosi := clampQ (dotv incident normal) (-1) 1
  let etai : ℚ := 1
  let etat := ior
  if 0 < cosi then
    let r0 := ((etat - etai) / (etat + etai)) ^ (2 : ℕ)
    r0 + (1 - r0) * (1 - cosi) ^ (5 : ℕ)
  else
    let cosi_abs := -cosi
    let r0 := ((etat - etai) / (etat + etai)) ^ (2 : ℕ)
    r0 + (1 - r0) * (1 - cosi_abs) ^ (5 : ℕ)

/-- `Color::to_vec3` from the `ColorVec3` impl in `main.rs`. -/
def Color.to_vec3 (c : Color) : Vec3Q := ⟨c.r.val, c.g.val, c.b.val⟩

/-- `Color::from_vec3`: the saturating `as u8` casts applied per channel. -/
def Color.from_vec3 (v : Vec3Q) : Color :=
  Color.new (f32ToU8 v.x) (f32ToU8 v.y) (f32ToU8 v.z)

/-- `Color::clamp` from the `ColorVec3` impl: `self.r.min(255)` per channel
(an identity on bytes, kept as written). -/
def Color.clamp (c : Color) : Color :=
  Color.new ⟨Min.min c.r.val 255, Nat.lt_succ_of_le (Nat.min_le_right _ _)⟩
    ⟨Min.min c.g.val 255, Nat.lt_succ_of_le (Nat.min_le_right _ _)⟩
    ⟨Min.min c.b.val 255, Nat.lt_succ_of_le (Nat.min_le_right _ _)⟩

/-- The winning hit of the intersection phase of
`cast_ray_optimized_recursive`. -/
structure HitInfo where
  material : Material
  point : Vec3Q
  normal : Vec3Q
  distance : ℚ
  hit_object : ℕ
  hit_cube : Option Cube

/-- Fallback cube for the (unreachable) out-of-range index lookup; the index
returned by `ray_intersect_fast` always comes from an enumeration of
`cubes`. -/
def defaultCube : Cube := Cube.new ⟨0, 0, 0⟩ 0 Material.stone_layer

/-- The intersection phase of `cast_ray_optimized_recursive` (lines 945–976 of
`main.rs`): the cube found by `ray_intersect_fast` (re-checked against the
`INFINITY` initial `closest_distance` and `object_type == 1`), then the floor
plane, which wins only when strictly closer. -/
def findHit (diorama : OptimizedDiorama) (floor : Plane) (o d : Vec3Q) :
    Option HitInfo :=
  let st0 : XQ × Option HitInfo := (⊤, none)
  let st1 : XQ × Option HitInfo :=
    match diorama.ray_intersect_fast o d with
    | some (object_index, distance, object_type) =>
      if fq (1/1000) < distance ∧ distance < st0.1 ∧ object_type = 1 then
        let cube := (diorama.cubes.get? object_index).getD defaultCube
        let hit_point := vadd o (vsmul (xqVal distance) d)
        (distance,
         some ⟨cube.material, hit_point, cube.get_normal hit_point,
               xqVal distance, 1, some cube⟩)
      else st0
    | none => st0
  match floor.ray_intersect o d with
  | some distance =>
    if fq (1/1000) < fq distance ∧ fq distance < st1.1 then
      let hit_point := vadd o (vsmul distance d)
      some ⟨floor.material, hit_point, floor.get_normal hit_point,
            distance, 5, none⟩
    else st1.2
  | none => st1.2

/-- The eleven texture arguments of `cast_ray_optimized_recursive`. -/
structure TexPack where
  grass : TextureFn
  dirt : TextureFn
  stone : TextureFn
  water : TextureFn
  lava : TextureFn
  obsidian : TextureFn
  sand : TextureFn
  leaves : TextureFn
  wood : TextureFn
  crystal : TextureFn
  cactus : TextureFn

/-- The base-color selection of the shading phase: the per-tag texture sample
at the cube's UV when the material declares texture support (Glass and Metal
always use the flat diffuse), else the flat diffuse color. -/
def baseColor (tex : TexPack) (hit : HitInfo) : Color :=
  if hit.hit_object = 1 ∧ hit.material.has_texture ∧ hit.hit_cube.isSome then
    match hit.hit_cube with
    | some cube =>
      let uv := cube.get_uv_coordinates hit.point
      match hit.material.material_type with
      | MaterialType.Grass => tex.grass uv.1 uv.2
      | MaterialType.Dirt => tex.dirt uv.1 uv.2
      | MaterialType.Stone => tex.stone uv.1 uv.2
      | MaterialType.Water => tex.water uv.1 uv.2
      | MaterialType.Lava => tex.lava uv.1 uv.2
      | MaterialType.Obsidian => tex.obsidian uv.1 uv.2
      | MaterialType.Sand => tex.sand uv.1 uv.2
      | MaterialType.Wood => tex.wood uv.1 uv.2
      | MaterialType.Leaves => tex.leaves uv.1 uv.2
      | MaterialType.Crystal => tex.crystal uv.1 uv.2
      | MaterialType.Glass => hit.material.diffuse
      | MaterialType.Metal => hit.material.diffuse
      | MaterialType.Cactus => tex.cactus uv.1 uv.2
    | none => hit.material.diffuse
  else hit.material.diffuse

/-- The per-tag ambient strength table of the shading phase. -/
def ambientStrength (m : Material) : ℚ :=
  match m.material_type with
  | MaterialType.Grass => 5/10
  | MaterialType.Stone => 25/100
  | MaterialType.Dirt => 35/100
  | MaterialType.Water => 15/100
  | MaterialType.Lava => 8/10
  | MaterialType.Sand => 45/100
  | MaterialType.Leaves => 55/100
  | MaterialType.Obsidian => 2/10
  | _ => 3/10

/-- The per-tag surface multiplier table of the lighting loop. -/
def surfaceMultiplier (m : Material) : ℚ :=
  match m.material_type with
  | MaterialType.Grass => 14/10
  | MaterialType.Stone => 8/10
  | MaterialType.Dirt => 1
  | MaterialType.Water => 2
  | MaterialType.Lava => 3/10
  | MaterialType.Sand => 12/10
  | MaterialType.Leaves => 16/10
  | MaterialType.Obsidian => 11/10
  | _ => 1

/-- The `for (i, light) in lights.iter().enumerate()` loop of the shading
phase, accumulating the RGB totals; the shadow test runs only for the first
light and only when the surface is not Water. -/
def shadeGo (sqrtq : ℚ → ℚ) (diorama : OptimizedDiorama) (m : Material)
    (base : Color) (hp hn : Vec3Q) :
    List Light → ℕ → ℚ × ℚ × ℚ → ℚ × ℚ × ℚ
  | [], _, acc => acc
  | light :: rest, i, acc =>
    let light_dir := normalizeW sqrtq (vsub light.position hp)
    let light_distance := distW sqrtq light.position hp
    let in_shadow :=
      if i = 0 ∧ m.material_type ≠ MaterialType.Water then
        diorama.ray_intersect_shadow_fast (vadd hp (vsmul (1/1000) hn))
          light_dir light_distance
      else false
    let acc' :=
      if in_shadow then acc
      else
        let diff := Max.max (dotv hn light_dir) 0
        let attenuation :=
          1 / (1 + (15/1000) * light_distance +
            (8/10000) * light_distance * light_distance)
        let light_contribution :=
          diff * light.intensity * attenuation * surfaceMultiplier m
        (acc.1 + (base.r.val : ℚ) * ((light.color.r.val : ℚ) / 255) *
           light_contribution,
         acc.2.1 + (base.g.val : ℚ) * ((light.color.g.val : ℚ) / 255) *
           light_contribution,
         acc.2.2 + (base.b.val : ℚ) * ((light.color.b.val : ℚ) / 255) *
           light_contribution)
    shadeGo sqrtq diorama m base hp hn rest (i + 1) acc'

/-- `cast_ray_optimized_recursive` from `main.rs`.  The returned pair is the
color of the source together with an instrumentation of the recursion: the
total number of recursive sub-calls performed (each reflection or refraction
branch contributes one call plus the sub-calls that call itself performs).
The statistics counters mutate nothing else and are omitted. -/
def cast_ray_optimized_recursive (sqrtq : ℚ → ℚ) (diorama : OptimizedDiorama)
    (floor : Plane) (lights : List Light) (tex : TexPack)
    (skybox : Option Skybox) : Vec3Q → Vec3Q → ℕ → Color × ℕ
  | _, ray_direction, 0 => (sample_sky sqrtq skybox ray_direction, 0)
  | ray_origin, ray_direction, depth + 1 =>
    match findHit diorama floor ray_origin ray_direction with
    | none => (sample_sky sqrtq skybox ray_direction, 0)
    | some hit =>
      let material := hit.material
      let base_color := baseColor tex hit
      let amb := ambientStrength material
      let tot0 : ℚ × ℚ × ℚ :=
        ((base_color.r.val : ℚ) * amb, (base_color.g.val : ℚ) * amb,
         (base_color.b.val : ℚ) * amb)
      let tot1 :=
        if material.is_emissive then
          let ec := material.emission_color
          let ei := material.emission_intensity
          (tot0.1 + (ec.r.val : ℚ) * ei * 2, tot0.2.1 + (ec.g.val : ℚ) * ei * 2,
           tot0.2.2 + (ec.b.val : ℚ) * ei * 2)
        else tot0
      let tot2 := shadeGo sqrtq diorama material base_color hit.point
        hit.normal lights 0 tot1
      let final_color := Color.new (f32ToU8 (Min.min tot2.1 255))
        (f32ToU8 (Min.min tot2.2.1 255)) (f32ToU8 (Min.min tot2.2.2 255))
      let reflPart :=
        if material.is_reflective then
          let refl_dir := reflect ray_direction hit.normal
          let refl_origin := vadd hit.point (vsmul (1/1000) hit.normal)
          some (cast_ray_optimized_recursive sqrtq diorama floor lights tex
            skybox refl_origin refl_dir depth)
        else none
      let refrPart :=
        if material.is_transparent then
          match refract sqrtq ray_direction hit.normal
              material.refractive_index with
          | some refr_dir =>
            let refr_origin := vsub hit.point (vsmul (1/1000) hit.normal)
            some (cast_ray_optimized_recursive sqrtq diorama floor lights tex
              skybox refr_origin refr_dir depth)
          | none => none
        else none
      let reflect_color := match reflPart with
        | some p => p.1
        | none => Color.black
      let refract_color := match refrPart with
        | some p => p.1
        | none => Color.black
      let subcalls :=
        (match reflPart with
         | some p => p.2 + 1
         | none => 0) +
        (match refrPart with
         | some p => p.2 + 1
         | none => 0)
      let result :=
        if material.is_transparent || material.is_reflective then
          let kr := clampQ
            (fresnel ray_direction hit.normal material.refractive_index) 0 1
          if material.is_transparent then
            let t := material.albedo.2
            let reflected_part := vsmul kr reflect_color.to_vec3
            let refracted_part := vsmul ((1 - kr) * t) refract_color.to_vec3
            let base_part := vsmul (1 - t) final_color.to_vec3
            (Color.from_vec3 (vadd (vadd base_part reflected_part)
              refracted_part)).clamp
          else
            (Color.from_vec3 (vadd (vsmul (1 - kr) final_color.to_vec3)
              (vsmul kr reflect_color.to_vec3))).clamp
        else final_color.clamp
      (result, subcalls)

/-- `OrbitCamera` from `camera.rs`, restricted to the four orbit parameters;
the cached `eye`/`forward`/`right`/`up` fields are pure functions of these
(recomputed by `update` after every mutation) and are treated separately. -/
structure OrbitCamera where
  target : Vec3Q
  distance : ℚ
  yaw : ℚ
  pitch : ℚ

/-- `f32` value of `std::f32::consts::PI` as an exact rational. -/
def pi32 : ℚ := 13176795 / 4194304

/-- Rust's `%` on floats: remainder with the dividend's sign
(`a - b * trunc(a / b)`). -/
def fRem (a b : ℚ) : ℚ :=
  a - b * (if 0 ≤ a / b then (⌊a / b⌋ : ℚ) else (-⌊-(a / b)⌋ : ℚ))

/-- `OrbitCamera::orbit`: accumulate yaw/pitch, clamp pitch to
`±PI * 0.49`, wrap yaw modulo `2 * PI`.  (`update` recomputes only the
cached fields and so does not appear on this state.) -/
def OrbitCamera.orbit (self : OrbitCamera) (delta_yaw delta_pitch : ℚ) :
    OrbitCamera :=
  { self with
    yaw := fRem (self.yaw + delta_yaw) (2 * pi32)
    pitch := clampQ (self.pitch + delta_pitch) (-(pi32 * (49/100)))
      (pi32 * (49/100)) }

/-- `OrbitCamera::zoom`: `(distance + delta).max(1.0).min(20.0)`. -/
def OrbitCamera.zoom (self : OrbitCamera) (delta : ℚ) : OrbitCamera :=
  { self with distance := Min.min (Max.max (self.distance + delta) 1) 20 }

/-- A camera mutation: the only two operations that touch the orbit state. -/
inductive CamOp where
  | zoomBy (delta : ℚ)
  | orbitBy (delta_yaw delta_pitch : ℚ)

/-- Apply one camera operation. -/
def applyOp (c : OrbitCamera) : CamOp → OrbitCamera
  | CamOp.zoomBy delta => c.zoom delta
  | CamOp.orbitBy dy dp => c.orbit dy dp

/-- Apply a sequence of camera operations, oldest first. -/
def applyOps (c : OrbitCamera) : List CamOp → OrbitCamera
  | [] => c
  | op :: rest => applyOps (applyOp c op) rest

/-- The eye offset computed by `OrbitCamera::update` from distance, yaw and
pitch (spherical coordinates), over the reals since it uses `cos`/`sin`. -/
noncomputable def eyeOffset (d yaw pitch : ℝ) : ℝ × ℝ × ℝ :=
  (d * Real.cos pitch * Real.cos yaw, d * Real.sin pitch,
   d * Real.cos pitch * Real.sin yaw)

/-- Squared length of the eye offset. -/
noncomputable def eyeOffsetNormSq (d yaw pitch : ℝ) : ℝ :=
  (eyeOffset d yaw pitch).1 ^ 2 + (eyeOffset d yaw pitch).2.1 ^ 2 +
    (eyeOffset d yaw pitch).2.2 ^ 2

/-- The running minimum never increases. -/
theorem minFoldGo_le_acc : ∀ (l : List ℚ) (acc : XQ), minFoldGo l acc ≤ acc
  | [], _ => le_refl _
  | q :: rest, acc =>
    le_trans (minFoldGo_le_acc rest (Min.min acc (fq q))) (min_le_left _ _)

/-- The running minimum is at most any listed value. -/
theorem minFoldGo_le_mem : ∀ (l : List ℚ) (acc : XQ) {q : ℚ}, q ∈ l →
    minFoldGo l acc ≤ fq q
  | a :: rest, acc, q, h => by
    rcases List.mem_cons.mp h with h' | h'
    · subst h'
      exact le_trans (minFoldGo_le_acc rest _) (min_le_right _ _)
    · exact minFoldGo_le_mem rest _ h'

/-- A lower bound on the start and on every listed value bounds the running
minimum. -/
theorem le_minFoldGo : ∀ (l : List ℚ) (acc B : XQ), (∀ q ∈ l, B ≤ fq q) →
    B ≤ acc → B ≤ minFoldGo l acc
  | [], _, _, _, h => h
  | a :: rest, acc, B, hl, hacc =>
    le_minFoldGo rest _ B (fun q hq => hl q (List.mem_cons_of_mem _ hq))
      (le_min hacc (hl a (List.mem_cons_self _ _)))

/-- The running maximum never decreases. -/
theorem acc_le_maxFoldGo : ∀ (l : List ℚ) (acc : XQ), acc ≤ maxFoldGo l acc
  | [], _ => le_refl _
  | q :: rest, acc =>
    le_trans (le_max_left _ _) (acc_le_maxFoldGo rest (Max.max acc (fq q)))

/-- Any listed value is at most the running maximum. -/
theorem mem_le_maxFoldGo : ∀ (l : List ℚ) (acc : XQ) {q : ℚ}, q ∈ l →
    fq q ≤ maxFoldGo l acc
  | a :: rest, acc, q, h => by
    rcases List.mem_cons.mp h with h' | h'
    · subst h'
      exact le_trans (le_max_right _ _) (acc_le_maxFoldGo rest _)
    · exact mem_le_maxFoldGo rest _ h'

/-- An upper bound on the start and on every listed value bounds the running
maximum. -/
theorem maxFoldGo_le : ∀ (l : List ℚ) (acc B : XQ), (∀ q ∈ l, fq q ≤ B) →
    acc ≤ B → maxFoldGo l acc ≤ B
  | [], _, _, _, h => h
  | a :: rest, acc, B, hl, hacc =>
    maxFoldGo_le rest _ B (fun q hq => hl q (List.mem_cons_of_mem _ hq))
      (max_le hacc (hl a (List.mem_cons_self _ _)))

/-- A listed value that is also a lower bound is the exact running minimum. -/
theorem fq_le_fq {a b : ℚ} : fq a ≤ fq b ↔ a ≤ b :=
  WithBot.coe_le_coe.trans WithTop.coe_le_coe

theorem minFold_eq_of (l : List ℚ) (m : ℚ) (hm : m ∈ l)
    (hb : ∀ q ∈ l, m ≤ q) : minFold l = fq m :=
  le_antisymm (minFoldGo_le_mem l ⊤ hm)
    (le_minFoldGo l ⊤ (fq m) (fun q hq => fq_le_fq.mpr (hb q hq)) le_top)

/-- A listed value that is also an upper bound is the exact running maximum. -/
theorem maxFold_eq_of (l : List ℚ) (m : ℚ) (hm : m ∈ l)
    (hb : ∀ q ∈ l, q ≤ m) : maxFold l = fq m :=
  le_antisymm
    (maxFoldGo_le l ⊥ (fq m) (fun q hq => fq_le_fq.mpr (hb q hq)) bot_le)
    (mem_le_maxFoldGo l ⊥ hm)

theorem xqVal_fq (q : ℚ) : xqVal (fq q) = q := rfl

theorem heights_le_seven : ∀ x < 18, ∀ z < 18, terrainHeight 18 x z ≤ 7 := by
  with_unfolding_all decide

/-- Coordinate bounds for every position the terrain loops of the reference
scene (`center = (0,0,0)`, `cube_size = 2`) visit. -/
theorem terrainPositions_bounds :
    ∀ p ∈ terrainPositions ⟨0, 0, 0⟩ 2,
      (-17 ≤ p.x ∧ p.x ≤ 17) ∧ (0 ≤ p.y ∧ p.y ≤ 14) ∧
        (-17 ≤ p.z ∧ p.z ≤ 17) := by
  intro p hp
  simp only [terrainPositions, List.mem_flatMap, List.mem_range,
    List.mem_map] at hp
  obtain ⟨z, hz, x, hx, y, hy, rfl⟩ := hp
  have hx17 : (x : ℚ) ≤ 17 := by exact_mod_cast Nat.lt_succ_iff.mp hx
  have hz17 : (z : ℚ) ≤ 17 := by exact_mod_cast Nat.lt_succ_iff.mp hz
  have hy7 : (y : ℚ) ≤ 7 := by
    have h1 : y ≤ terrainHeight 18 x z := Nat.lt_succ_iff.mp hy
    have h2 : y ≤ 7 := le_trans h1 (heights_le_seven x hx z hz)
    exact_mod_cast h2
  have hx0 : (0 : ℚ) ≤ (x : ℚ) := Nat.cast_nonneg x
  have hz0 : (0 : ℚ) ≤ (z : ℚ) := Nat.cast_nonneg z
  have hy0 : (0 : ℚ) ≤ (y : ℚ) := Nat.cast_nonneg y
  simp only [cellPos]
  refine ⟨⟨by linarith, by linarith⟩, ⟨by linarith, by linarith⟩,
    by linarith, by linarith⟩

theorem bigSceneMinX :
    minFold ((terrainPositions ⟨0, 0, 0⟩ 2).map Vec3Q.x) = fq (-17) := by
  apply minFold_eq_of
  · refine List.mem_map.mpr ⟨cellPos ⟨0, 0, 0⟩ 2 0 0 0, ?_, by
      with_unfolding_all decide⟩
    simp only [terrainPositions, List.mem_flatMap, List.mem_range,
      List.mem_map]
    exact ⟨0, by norm_num, 0, by norm_num, 0, by norm_num, rfl⟩
  · intro q hq
    obtain ⟨p, hp, rfl⟩ := List.mem_map.mp hq
    exact ((terrainPositions_bounds p hp).1).1

theorem bigSceneMaxX :
    maxFold ((terrainPositions ⟨0, 0, 0⟩ 2).map Vec3Q.x) = fq 17 := by
  apply maxFold_eq_of
  · refine List.mem_map.mpr ⟨cellPos ⟨0, 0, 0⟩ 2 17 0 0, ?_, by
      with_unfolding_all decide⟩
    simp only [terrainPositions, List.mem_flatMap, List.mem_range,
      List.mem_map]
    exact ⟨0, by norm_num, 17, by norm_num, 0, by norm_num, rfl⟩
  · intro q hq
    obtain ⟨p, hp, rfl⟩ := List.mem_map.mp hq
    exact ((terrainPositions_bounds p hp).1).2

theorem bigSceneMinY :
    minFold ((terrainPositions ⟨0, 0, 0⟩ 2).map Vec3Q.y) = fq 0 := by
  apply minFold_eq_of
  · refine List.mem_map.mpr ⟨cellPos ⟨0, 0, 0⟩ 2 0 0 0, ?_, by
      with_unfolding_all decide⟩
    simp only [terrainPositions, List.mem_flatMap, List.mem_range,
      List.mem_map]
    exact ⟨0, by norm_num, 0, by norm_num, 0, by norm_num, rfl⟩
  · intro q hq
    obtain ⟨p, hp, rfl⟩ := List.mem_map.mp hq
    exact ((terrainPositions_bounds p hp).2).1.1

theorem bigSceneMaxY :
    maxFold ((terrainPositions ⟨0, 0, 0⟩ 2).map Vec3Q.y) = fq 14 := by
  apply maxFold_eq_of
  · refine List.mem_map.mpr ⟨cellPos ⟨0, 0, 0⟩ 2 17 7 12, ?_, by
      with_unfolding_all decide⟩
    simp only [terrainPositions, List.mem_flatMap, List.mem_range,
      List.mem_map]
    refine ⟨12, by norm_num, 17, by norm_num, 7, ?_, rfl⟩
    with_unfolding_all decide
  · intro q hq
    obtain ⟨p, hp, rfl⟩ := List.mem_map.mp hq
    exact ((terrainPositions_bounds p hp).2).1.2

theorem bigSceneMinZ :
    minFold ((terrainPositions ⟨0, 0, 0⟩ 2).map Vec3Q.z) = fq (-17) := by
  apply minFold_eq_of
  · refine List.mem_map.mpr ⟨cellPos ⟨0, 0, 0⟩ 2 0 0 0, ?_, by
      with_unfolding_all decide⟩
    simp only [terrainPositions, List.mem_flatMap, List.mem_range,
      List.mem_map]
    exact ⟨0, by norm_num, 0, by norm_num, 0, by norm_num, rfl⟩
  · intro q hq
    obtain ⟨p, hp, rfl⟩ := List.mem_map.mp hq
    exact ((terrainPositions_bounds p hp).2).2.1

theorem bigSceneMaxZ :
    maxFold ((terrainPositions ⟨0, 0, 0⟩ 2).map Vec3Q.z) = fq 17 := by
  apply maxFold_eq_of
  · refine List.mem_map.mpr ⟨cellPos ⟨0, 0, 0⟩ 2 0 0 17, ?_, by
      with_unfolding_all decide⟩
    simp only [terrainPositions, List.mem_flatMap, List.mem_range,
      List.mem_map]
    exact ⟨17, by norm_num, 0, by norm_num, 0, by norm_num, rfl⟩
  · intro q hq
    obtain ⟨p, hp, rfl⟩ := List.mem_map.mp hq
    exact ((terrainPositions_bounds p hp).2).2.2

/-- The bounding-box corners of the reference scene. -/
theorem bigSceneBBox :
    (OptimizedDiorama.new ⟨0, 0, 0⟩ 2).bounding_box_min = ⟨-19, -2, -19⟩ ∧
      (OptimizedDiorama.new ⟨0, 0, 0⟩ 2).bounding_box_max = ⟨19, 16, 19⟩ := by
  constructor <;>
    simp only [OptimizedDiorama.new, bigSceneMinX, bigSceneMaxX, bigSceneMinY,
      bigSceneMaxY, bigSceneMinZ, bigSceneMaxZ, xqVal_fq] <;>
    norm_num

/-- Exact behaviour of the `ray_intersect_fast` scan loop from any reachable
loop state: either the state is returned unchanged and nothing in the
remaining list beats it, or some listed cube wins — strictly beating the
carried state and every earlier listed cube, and beating the rest of the list
too unless the early `break` (`distance < 0.1`) fired on it. -/
theorem scanCubes_spec (o d : Vec3Q) :
    ∀ (l : List Cube) (i0 : ℕ) (closest : XQ) (cidx : Option ℕ),
      (∀ k, cidx = some k → fq (1/1000) < closest ∧ ¬ closest < fq (1/10)) →
      ∀ r ri, scanCubes o d l i0 closest cidx = (r, ri) →
        (ri = cidx ∧ r = closest ∧
          ∀ j c t', l.get? j = some c → c.ray_intersect o d = some t' →
            fq (1/1000) < t' → ¬ t' < closest) ∨
        (∃ j c, l.get? j = some c ∧ ri = some (i0 + j) ∧
          c.ray_intersect o d = some r ∧ fq (1/1000) < r ∧ r < closest ∧
          (∀ j' c' t', j' < j → l.get? j' = some c' →
            c'.ray_intersect o d = some t' → fq (1/1000) < t' → r < t') ∧
          (r < fq (1/10) ∨
            ∀ j' c' t', l.get? j' = some c' → c'.ray_intersect o d = some t' →
              fq (1/1000) < t' → r ≤ t')) := by
  intro l
  induction l with
  | nil =>
    intro i0 closest cidx _ r ri hscan
    simp only [scanCubes, Prod.mk.injEq] at hscan
    exact Or.inl ⟨hscan.2.symm, hscan.1.symm, by intro j c t' hj; simp at hj⟩
  | cons c rest IH =>
    intro i0 closest cidx hstate r ri hscan
    rw [scanCubes] at hscan
    cases hc : c.ray_intersect o d with
    | none =>
      simp only [hc] at hscan
      rcases IH (i0 + 1) closest cidx hstate r ri hscan with
        ⟨h1, h2, h3⟩ | ⟨j, cw, hj, hri, hhit, hmil, hlt, hbefore, hrest⟩
      · refine Or.inl ⟨h1, h2, ?_⟩
        intro j cj t' hj hhit hmil
        match j, hj with
        | 0, hj =>
          simp only [List.get?_cons_zero, Option.some.injEq] at hj
          subst hj
          rw [hc] at hhit
          exact absurd hhit (by simp)
        | j + 1, hj => exact h3 j cj t' (by simpa using hj) hhit hmil
      · refine Or.inr ⟨j + 1, cw, by simpa using hj, ?_, hhit,
          hmil, hlt, ?_, ?_⟩
        · rw [show i0 + (j + 1) = i0 + 1 + j by omega]
          exact hri
        · intro j' c' t' hj' hg hh hm
          match j', hj' with
          | 0, _ =>
            simp only [List.get?_cons_zero, Option.some.injEq] at hg
            subst hg
            rw [hc] at hh
            exact absurd hh (by simp)
          | j' + 1, hj' =>
            exact hbefore j' c' t' (by omega) (by simpa using hg) hh hm
        · rcases hrest with h | h
          · exact Or.inl h
          · refine Or.inr ?_
            intro j' c' t' hg hh hm
            match j' with
            | 0 =>
              simp only [List.get?_cons_zero, Option.some.injEq] at hg
              subst hg
              rw [hc] at hh
              exact absurd hh (by simp)
            | j' + 1 => exact h j' c' t' (by simpa using hg) hh hm
    | some t =>
      simp only [hc] at hscan
      by_cases hacc : fq (1/1000) < t ∧ t < closest
      · rw [if_pos hacc] at hscan
        by_cases hbrk : t < fq (1/10)
        · rw [if_pos hbrk] at hscan
          injection hscan with hr hri
          subst hr; subst hri
          refine Or.inr ⟨0, c, by simp, by simp, hc, hacc.1, hacc.2,
            by intro j' c' t' hj'; omega, Or.inl hbrk⟩
        · rw [if_neg hbrk] at hscan
          rcases IH (i0 + 1) t (some i0) (by
            intro k hk
            exact ⟨hacc.1, hbrk⟩) r ri hscan with
            ⟨h1, h2, h3⟩ | ⟨j, cw, hj, hri, hhit, hmil, hlt, hbefore, hrest⟩
          · subst h2
            refine Or.inr ⟨0, c, by simp, by simpa using h1, hc, hacc.1,
              hacc.2, by intro j' c' t' hj'; omega, Or.inr ?_⟩
            intro j' c' t' hg hh hm
            match j' with
            | 0 =>
              simp only [List.get?_cons_zero, Option.some.injEq] at hg
              subst hg
              rw [hc] at hh
              injection hh with hh
              exact le_of_eq hh
            | j' + 1 =>
              exact not_lt.mp (h3 j' c' t' (by simpa using hg) hh hm)
          · refine Or.inr ⟨j + 1, cw, by simpa using hj, ?_, hhit, hmil,
              lt_trans hlt hacc.2, ?_, ?_⟩
            · rw [show i0 + (j + 1) = i0 + 1 + j by omega]
              exact hri
            · intro j' c' t' hj' hg hh hm
              match j', hj' with
              | 0, _ =>
                simp only [List.get?_cons_zero, Option.some.injEq] at hg
                subst hg
                rw [hc] at hh
                injection hh with hh
                subst hh
                exact hlt
              | j' + 1, hj' =>
                exact hbefore j' c' t' (by omega) (by simpa using hg) hh hm
            · rcases hrest with h | h
              · exact Or.inl h
              · refine Or.inr ?_
                intro j' c' t' hg hh hm
                match j' with
                | 0 =>
                  simp only [List.get?_cons_zero, Option.some.injEq] at hg
                  subst hg
                  rw [hc] at hh
                  injection hh with hh
                  subst hh
                  exact le_of_lt hlt
                | j' + 1 => exact h j' c' t' (by simpa using hg) hh hm
      · rw [if_neg hacc] at hscan
        rcases IH (i0 + 1) closest cidx hstate r ri hscan with
          ⟨h1, h2, h3⟩ | ⟨j, cw, hj, hri, hhit, hmil, hlt, hbefore, hrest⟩
        · refine Or.inl ⟨h1, h2, ?_⟩
          intro j cj t' hj hhit hmil
          match j with
          | 0 =>
            simp only [List.get?_cons_zero, Option.some.injEq] at hj
            subst hj
            rw [hc] at hhit
            injection hhit with hhit
            subst hhit
            intro hlt'
            exact hacc ⟨hmil, hlt'⟩
          | j + 1 => exact h3 j cj t' (by simpa using hj) hhit hmil
        · refine Or.inr ⟨j + 1, cw, by simpa using hj, ?_, hhit, hmil, hlt,
            ?_, ?_⟩
          · rw [show i0 + (j + 1) = i0 + 1 + j by omega]
            exact hri
          · intro j' c' t' hj' hg hh hm
            match j', hj' with
            | 0, _ =>
              simp only [List.get?_cons_zero, Option.some.injEq] at hg
              subst hg
              rw [hc] at hh
              injection hh with hh
              rw [hh] at hacc
              have hnc : ¬ t' < closest := fun hl => hacc ⟨hm, hl⟩
              exact lt_of_lt_of_le hlt (not_lt.mp hnc)
            | j' + 1, hj' =>
              exact hbefore j' c' t' (by omega) (by simpa using hg) hh hm
          · rcases hrest with h | h
            · exact Or.inl h
            · refine Or.inr ?_
              intro j' c' t' hg hh hm
              match j' with
              | 0 =>
                simp only [List.get?_cons_zero, Option.some.injEq] at hg
                subst hg
                rw [hc] at hh
                injection hh with hh
                rw [hh] at hacc
                have hnc : ¬ t' < closest := fun hl => hacc ⟨hm, hl⟩
                exact le_trans (le_of_lt hlt) (not_lt.mp hnc)
              | j' + 1 => exact h j' c' t' (by simpa using hg) hh hm

theorem fq_lt_fq {a b : ℚ} : fq a < fq b ↔ a < b :=
  WithBot.coe_lt_coe.trans WithTop.coe_lt_coe

/-- What a `some` result of `ray_intersect_fast` guarantees: the bounding box
passed, the tag is 1, the distance is a finite accepted hit of the indexed
cube, it strictly beats every accepted hit at a smaller index, and — unless
the early `break` fired (distance below 0.1) — it is minimal over the whole
cube list. -/
theorem ray_intersect_fast_spec (self : OptimizedDiorama) (o d : Vec3Q)
    (i : ℕ) (t : XQ) (ty : ℕ)
    (h : self.ray_intersect_fast o d = some (i, t, ty)) :
    self.ray_intersects_bbox o d = true ∧ ty = 1 ∧ t < ⊤ ∧
      (∃ c, self.cubes.get? i = some c ∧ c.ray_intersect o d = some t ∧
        fq (1/1000) < t) ∧
      (∀ j c' t', j < i → self.cubes.get? j = some c' →
        c'.ray_intersect o d = some t' → fq (1/1000) < t' → t < t') ∧
      (t < fq (1/10) ∨ ∀ j c' t', self.cubes.get? j = some c' →
        c'.ray_intersect o d = some t' → fq (1/1000) < t' → t ≤ t') := by
  unfold OptimizedDiorama.ray_intersect_fast at h
  by_cases hb : self.ray_intersects_bbox o d
  · rw [if_neg (by simp [hb])] at h
    rcases hs : scanCubes o d self.cubes 0 ⊤ none with ⟨dist, ridx⟩
    rw [hs] at h
    cases ridx with
    | none => exact absurd h (by simp)
    | some idx =>
      simp only [Option.some.injEq, Prod.mk.injEq] at h
      obtain ⟨hi, ht, hty⟩ := h
      subst hi; subst ht; subst hty
      rcases scanCubes_spec o d self.cubes 0 ⊤ none (by simp) dist (some idx)
        hs with ⟨h1, _, _⟩ | ⟨j, c, hj, hri, hhit, hmil, hlt, hbefore, hrest⟩
      · exact absurd h1 (by simp)
      · simp only [Option.some.injEq, Nat.zero_add] at hri
        subst hri
        refine ⟨hb, rfl, hlt, ⟨c, hj, hhit, hmil⟩, ?_, ?_⟩
        · intro j' c' t' hj' hg hh hm
          exact hbefore j' c' t' hj' hg hh hm
        · exact hrest
  · rw [if_pos (by simp [hb])] at h
    exact absurd h (by simp)

/-- `Plane::ray_intersect` only reports distances beyond the 0.001
threshold. -/
theorem plane_hit_pos (p : Plane) (o d : Vec3Q) (t : ℚ)
    (h : p.ray_intersect o d = some t) : 1/1000 < t := by
  unfold Plane.ray_intersect at h
  simp only [] at h
  split_ifs at h with h1 h2
  · injection h with h
    subst h
    exact h2

/-- The floor-comparison phase of the ray caster: given a cube hit from
`ray_intersect_fast`, the floor plane wins exactly when its distance is
strictly smaller; otherwise the cube hit is shaded. -/
theorem findHit_nearer (self : OptimizedDiorama) (floor : Plane)
    (o d : Vec3Q) (i : ℕ) (t : XQ)
    (hfast : self.ray_intersect_fast o d = some (i, t, 1))
    (hmil : fq (1/1000) < t) (hlt : t < ⊤) :
    (∀ ft, floor.ray_intersect o d = some ft →
      (fq ft < t → ∃ hi, findHit self floor o d = some hi ∧
        hi.hit_object = 5 ∧ hi.distance = ft ∧ hi.material = floor.material) ∧
      (¬ fq ft < t → ∃ hi, findHit self floor o d = some hi ∧
        hi.hit_object = 1 ∧ hi.distance = xqVal t)) ∧
    (floor.ray_intersect o d = none → ∃ hi, findHit self floor o d = some hi ∧
      hi.hit_object = 1 ∧ hi.distance = xqVal t) := by
  unfold findHit
  rw [hfast]
  simp only []
  rw [if_pos (⟨hmil, hlt, trivial⟩ : fq (1/1000) < t ∧ t < ⊤ ∧ True)]
  constructor
  · intro ft hf
    rw [hf]
    simp only []
    constructor
    · intro hlt'
      rw [if_pos (⟨fq_lt_fq.mpr (plane_hit_pos floor o d ft hf), hlt'⟩ :
        fq (1/1000) < fq ft ∧ fq ft < t)]
      exact ⟨_, rfl, rfl, rfl, rfl⟩
    · intro hnlt
      rw [if_neg (fun hcon => hnlt hcon.2)]
      exact ⟨_, rfl, rfl, rfl⟩
  · intro hf
    rw [hf]
    exact ⟨_, rfl, rfl, rfl⟩

/-- The reference scene: `OptimizedDiorama::new` at the origin with cube size
2 (all cube corners are integers, which keeps the arithmetic exact). -/
def bigScene : OptimizedDiorama := OptimizedDiorama.new ⟨0, 0, 0⟩ 2

/-- The floor plane of `main.rs`: point `(0, -2, 0)`, unit normal `(0, 1, 0)`
(`Plane::new` normalizes the normal; `(0,1,0)` is already unit). -/
def mainFloor : Plane := ⟨⟨0, -2, 0⟩, ⟨0, 1, 0⟩, Material.stone_wall⟩

/-- `ray_intersects_bbox` depends on the diorama only through its two
corners. -/
theorem bbox_of_corners (self : OptimizedDiorama) (bmin bmax : Vec3Q)
    (hmin : self.bounding_box_min = bmin)
    (hmax : self.bounding_box_max = bmax) (o d : Vec3Q) :
    self.ray_intersects_bbox o d =
      (match slabGo [⟨bmin.x, bmax.x, o.x, d.x⟩, ⟨bmin.y, bmax.y, o.y, d.y⟩,
          ⟨bmin.z, bmax.z, o.z, d.z⟩] ⊥ ⊤ with
        | none => false
        | some (_, tmax) => decide (fq 0 < tmax)) := by
  unfold OptimizedDiorama.ray_intersects_bbox bboxAxes
  rw [hmin, hmax]

theorem bigSceneBBoxTrue :
    bigScene.ray_intersects_bbox ⟨-17, 2, 5⟩ ⟨0, 0, -1000⟩ = true := by
  rw [bbox_of_corners bigScene ⟨-19, -2, -19⟩ ⟨19, 16, 19⟩ bigSceneBBox.1
    bigSceneBBox.2]
  with_unfolding_all decide

theorem bigSceneBBoxFalse :
    bigScene.ray_intersects_bbox ⟨-100, 22, 9⟩ ⟨1, 0, 0⟩ = false := by
  rw [bbox_of_corners bigScene ⟨-19, -2, -19⟩ ⟨19, 16, 19⟩ bigSceneBBox.1
    bigSceneBBox.2]
  with_unfolding_all decide

theorem bigSceneFastC1 :
    bigScene.ray_intersect_fast ⟨-17, 2, 5⟩ ⟨0, 0, -1000⟩
      = some (1, fq (21/1000), 1) := by
  have hscan : scanCubes ⟨-17, 2, 5⟩ ⟨0, 0, -1000⟩ bigScene.cubes 0 ⊤ none
      = (fq (21/1000), some 1) := by with_unfolding_all decide
  unfold OptimizedDiorama.ray_intersect_fast
  rw [bigSceneBBoxTrue, hscan]
  rfl

/-- The minimality statement of claim C1: when the bounding-box test passes,
`ray_intersect_fast` returns the distance of the cube whose intersection
distance is smallest among all cubes with distance above 0.001, ties broken
in favor of the earliest array index. -/
def c1MinimalityAt (self : OptimizedDiorama) (o d : Vec3Q) : Prop :=
  self.ray_intersects_bbox o d = true →
    ∀ i t ty, self.ray_intersect_fast o d = some (i, t, ty) →
      ∀ j c' t', self.cubes.get? j = some c' →
        c'.ray_intersect o d = some t' → fq (1/1000) < t' →
          t ≤ t' ∧ (t' = t → i ≤ j)

/-- The floor-comparison statement of claim C1: the ray caster compares the
cube hit against the floor plane and shades whichever of the two is nearer
(`findHit` is the intersection phase of `cast_ray_optimized_recursive`). -/
def c1FloorOk (self : OptimizedDiorama) (floor : Plane) (o d : Vec3Q) : Prop :=
  ∀ i t, self.ray_intersect_fast o d = some (i, t, 1) →
    fq (1/1000) < t → t < ⊤ →
      (∀ ft, floor.ray_intersect o d = some ft →
        (fq ft < t → ∃ hi, findHit self floor o d = some hi ∧
          hi.hit_object = 5 ∧ hi.distance = ft ∧
          hi.material = floor.material) ∧
        (¬ fq ft < t → ∃ hi, findHit self floor o d = some hi ∧
          hi.hit_object = 1 ∧ hi.distance = xqVal t)) ∧
      (floor.ray_intersect o d = none → ∃ hi,
        findHit self floor o d = some hi ∧ hi.hit_object = 1 ∧
        hi.distance = xqVal t)

/-- Claim C1 at one ray: the scan-minimality statement together with the
floor comparison. -/
def c1ClaimAt (self : OptimizedDiorama) (floor : Plane) (o d : Vec3Q) : Prop :=
  c1MinimalityAt self o d ∧ c1FloorOk self floor o d

/-- C1 counterexample: in the generated scene, the ray from `(-17, 2, 5)` in
direction `(0, 0, -1000)` passes the bounding-box test, and
`ray_intersect_fast` returns the cube at index 1 with distance `0.021`
because the early `break` (distance below 0.1) stops the scan — yet the
terrain cube of cell `(x, z) = (0, 9)` at level 1 is intersected at distance
`0.003 > 0.001`, strictly closer.  The claim as stated is therefore false. -/
theorem c1_counterexample :
    ¬ c1ClaimAt bigScene mainFloor ⟨-17, 2, 5⟩ ⟨0, 0, -1000⟩ := by
  intro hcl
  have hmemT : Cube.new (cellPos ⟨0, 0, 0⟩ 2 0 1 9) 2
      (determine_material 0 9 1 6) ∈ terrainCubes ⟨0, 0, 0⟩ 2 := by
    simp only [terrainCubes, List.mem_flatMap, List.mem_filterMap,
      List.mem_range]
    refine ⟨9, by norm_num, 0, by norm_num, 1, ?_, ?_⟩
    · with_unfolding_all decide
    · with_unfolding_all decide
  have hmem : Cube.new (cellPos ⟨0, 0, 0⟩ 2 0 1 9) 2
      (determine_material 0 9 1 6) ∈ bigScene.cubes :=
    List.mem_append_left _ (List.mem_append_left _
      (List.mem_append_left _ (List.mem_append_left _ hmemT)))
  obtain ⟨j, hj⟩ := List.mem_iff_get?.mp hmem
  have h := hcl.1 bigSceneBBoxTrue 1 (fq (21/1000)) 1 bigSceneFastC1 j _
    (fq (3/1000)) hj (by with_unfolding_all decide)
    (by with_unfolding_all decide)
  exact absurd h.1 (by with_unfolding_all decide)

/-- C1 (amended): when the bounding-box test passes and `ray_intersect_fast`
returns a hit, the returned distance is an accepted hit (`> 0.001`) of the
indexed cube that strictly beats every accepted hit at a smaller index; it is
minimal over the *whole* cube list unless it lies below `0.1`, in which case
the scan stopped early at that cube and later cubes may be closer.  The ray
caster then compares the winner against the floor plane and shades whichever
of the two hits is nearer (floor only on a strictly smaller distance). -/
theorem c1_amended :
    (∀ (self : OptimizedDiorama) (o d : Vec3Q) (i : ℕ) (t : XQ) (ty : ℕ),
      self.ray_intersect_fast o d = some (i, t, ty) →
        self.ray_intersects_bbox o d = true ∧ ty = 1 ∧ t < ⊤ ∧
        (∃ c, self.cubes.get? i = some c ∧ c.ray_intersect o d = some t ∧
          fq (1/1000) < t) ∧
        (∀ j c' t', j < i → self.cubes.get? j = some c' →
          c'.ray_intersect o d = some t' → fq (1/1000) < t' → t < t') ∧
        (t < fq (1/10) ∨ ∀ j c' t', self.cubes.get? j = some c' →
          c'.ray_intersect o d = some t' → fq (1/1000) < t' → t ≤ t')) ∧
    (∀ (self : OptimizedDiorama) (floor : Plane) (o d : Vec3Q),
      c1FloorOk self floor o d) :=
  ⟨fun self o d i t ty h => ray_intersect_fast_spec self o d i t ty h,
   fun self floor o d i t hf hm hl => findHit_nearer self floor o d i t hf hm hl⟩

/-- A two-cube scene with literal bounding box for witnesses. -/
def smallScene : OptimizedDiorama :=
  { cubes := [Cube.new ⟨3, 0, 0⟩ 2 Material.stone_layer,
              Cube.new ⟨7, 0, 0⟩ 2 Material.stone_layer]
    water_planes := []
    lava_planes := []
    bounding_box_min := ⟨-100, -100, -100⟩
    bounding_box_max := ⟨100, 100, 100⟩ }

theorem c1_amended_witness :
    (∃ c, smallScene.cubes.get? 0 = some c ∧
      c.ray_intersect ⟨0, 0, 0⟩ ⟨1, 0, 0⟩ = some (fq 2) ∧
      fq (1/1000) < fq 2) ∧
    (∃ hi, findHit smallScene mainFloor ⟨0, 0, 0⟩ ⟨1, 0, 0⟩ = some hi ∧
      hi.hit_object = 1 ∧ hi.distance = xqVal (fq 2)) := by
  have hf : smallScene.ray_intersect_fast ⟨0, 0, 0⟩ ⟨1, 0, 0⟩
      = some (0, fq 2, 1) := by with_unfolding_all decide
  refine ⟨(c1_amended.1 smallScene ⟨0, 0, 0⟩ ⟨1, 0, 0⟩ 0 (fq 2) 1 hf).2.2.2.1,
    ?_⟩
  exact (c1_amended.2 smallScene mainFloor ⟨0, 0, 0⟩ ⟨1, 0, 0⟩ 0 (fq 2) hf
    (by with_unfolding_all decide) (by with_unfolding_all decide)).2
    (by with_unfolding_all decide)

/-- Claim C2 at one ray: if the bounding-box test rejects the ray, no cube of
the scene is intersected at an accepted distance (no false negative against
the full per-cube scan). -/
def c2BBoxSoundAt (self : OptimizedDiorama) (o d : Vec3Q) : Prop :=
  self.ray_intersects_bbox o d = false →
    ∀ c ∈ self.cubes, ∀ t, c.ray_intersect o d = some t →
      ¬ fq (1/1000) < t

/-- C2 failing input: the bounding box is folded over the terrain positions
only, before `place_tree` adds the canopy (levels up to 11, above the terrain
maximum of 7), so canopy cubes protrude above the padded box.  The horizontal
ray from `(-100, 22, 9)` in direction `(1, 0, 0)` is rejected by
`ray_intersects_bbox` (its `y` lies above the box), yet it intersects the
canopy cube of cell `(14, 13)` at level 11 at distance 110. -/
theorem c2_code_bug : ¬ c2BBoxSoundAt bigScene ⟨-100, 22, 9⟩ ⟨1, 0, 0⟩ := by
  intro h
  have hmemT : Cube.new (cellPos ⟨0, 0, 0⟩ 2 14 11 13) 2
      Material.leaves_block ∈ treeCubes ⟨0, 0, 0⟩ 2 := by
    with_unfolding_all decide
  have hmem : Cube.new (cellPos ⟨0, 0, 0⟩ 2 14 11 13) 2
      Material.leaves_block ∈ bigScene.cubes :=
    List.mem_append_left _ (List.mem_append_left _
      (List.mem_append_left _ (List.mem_append_right _ hmemT)))
  exact absurd (h bigSceneBBoxFalse _ hmem (fq 110)
    (by with_unfolding_all decide)) (by with_unfolding_all decide)

/-- Claim C3 as stated: at most `2^D` recursive sub-calls for any starting
depth `D`. -/
def c3SubcallClaim : Prop :=
  ∀ (sqrtq : ℚ → ℚ) (diorama : OptimizedDiorama) (floor : Plane)
    (lights : List Light) (tex : TexPack) (skybox : Option Skybox)
    (o d : Vec3Q) (depth : ℕ),
    (cast_ray_optimized_recursive sqrtq diorama floor lights tex skybox o d
      depth).2 ≤ 2 ^ depth

/-- Two facing water cubes: water is both reflective and transparent, so a
hit spawns both branches. -/
def waterScene : OptimizedDiorama :=
  { cubes := [Cube.new ⟨3, 0, 0⟩ 2 Material.water_surface,
              Cube.new ⟨-3, 0, 0⟩ 2 Material.water_surface]
    water_planes := []
    lava_planes := []
    bounding_box_min := ⟨-100, -100, -100⟩
    bounding_box_max := ⟨100, 100, 100⟩ }

/-- A floor far below, never hit by the horizontal test rays. -/
def farFloor : Plane := ⟨⟨0, -1000, 0⟩, ⟨0, 1, 0⟩, Material.stone_wall⟩

/-- An arbitrary constant texture pack. -/
def grayTex : TexPack :=
  ⟨fun _ _ => Color.new 200 200 200, fun _ _ => Color.new 200 200 200,
   fun _ _ => Color.new 200 200 200, fun _ _ => Color.new 200 200 200,
   fun _ _ => Color.new 200 200 200, fun _ _ => Color.new 200 200 200,
   fun _ _ => Color.new 200 200 200, fun _ _ => Color.new 200 200 200,
   fun _ _ => Color.new 200 200 200, fun _ _ => Color.new 200 200 200,
   fun _ _ => Color.new 200 200 200⟩

/-- C3 counterexample: between the two water cubes, a primary ray at depth 2
performs 6 recursive sub-calls (reflection and refraction at the first hit,
each hitting water again and spawning two depth-0 calls), and `6 > 2^2`, so
the claimed `2^D` bound is false. -/
theorem c3_counterexample :
    (cast_ray_optimized_recursive Rat.sqrt waterScene farFloor [] grayTex
      none ⟨0, 0, 0⟩ ⟨1, 0, 0⟩ 2).2 = 6 ∧ ¬ c3SubcallClaim := by
  constructor
  · with_unfolding_all decide
  · intro h
    have h6 := h Rat.sqrt waterScene farFloor [] grayTex none
      ⟨0, 0, 0⟩ ⟨1, 0, 0⟩ 2
    rw [show (cast_ray_optimized_recursive Rat.sqrt waterScene farFloor []
      grayTex none ⟨0, 0, 0⟩ ⟨1, 0, 0⟩ 2).2 = 6 from by
        with_unfolding_all decide] at h6
    omega

/-- The recursion bound that actually holds: each call at positive depth
spawns at most one reflection and one refraction call at the next lower
depth, so the sub-call count obeys `S(D) <= 2 + 2*S(D-1)`, `S(0) = 0`, i.e.
`S(D) <= 2^(D+1) - 2`. -/
theorem castSubcalls_le :
    ∀ (depth : ℕ) (sqrtq : ℚ → ℚ) (diorama : OptimizedDiorama)
      (floor : Plane) (lights : List Light) (tex : TexPack)
      (skybox : Option Skybox) (o d : Vec3Q),
      (cast_ray_optimized_recursive sqrtq diorama floor lights tex skybox o d
        depth).2 ≤ 2 ^ (depth + 1) - 2 := by
  intro depth
  induction depth with
  | zero =>
    intro sqrtq diorama floor lights tex skybox o d
    rw [cast_ray_optimized_recursive]
    simp
  | succ n IH =>
    intro sqrtq diorama floor lights tex skybox o d
    rw [cast_ray_optimized_recursive]
    cases hh : findHit diorama floor o d with
    | none => simp
    | some hit =>
      simp only []
      have h1 : (1 : ℕ) ≤ 2 ^ (n + 1) := Nat.one_le_two_pow
      have hpow : (2 : ℕ) ^ (n + 1 + 1) = 2 * 2 ^ (n + 1) := by
        rw [pow_succ]; ring
      cases hra : (if hit.material.is_reflective = true then
          some (cast_ray_optimized_recursive sqrtq diorama floor lights tex
            skybox (vadd hit.point (vsmul (1/1000) hit.normal))
            (reflect d hit.normal) n) else none) with
      | none =>
        cases hrb : (if hit.material.is_transparent = true then
            (match refract sqrtq d hit.normal
                hit.material.refractive_index with
             | some refr_dir =>
               some (cast_ray_optimized_recursive sqrtq diorama floor lights
                 tex skybox (vsub hit.point (vsmul (1/1000) hit.normal))
                 refr_dir n)
             | none => none) else none) with
        | none => simp only []; omega
        | some p =>
          have hp : p.2 ≤ 2 ^ (n + 1) - 2 := by
            split_ifs at hrb with ht
            · cases hrf : refract sqrtq d hit.normal
                  hit.material.refractive_index with
              | some rd =>
                rw [hrf] at hrb
                simp only [Option.some.injEq] at hrb
                rw [← hrb]
                exact IH sqrtq diorama floor lights tex skybox _ rd
              | none => exact Option.noConfusion (hrf ▸ hrb)
          simp only []
          omega
      | some p =>
        have hp : p.2 ≤ 2 ^ (n + 1) - 2 := by
          split_ifs at hra with hrfl
          · simp only [Option.some.injEq] at hra
            rw [← hra]
            exact IH sqrtq diorama floor lights tex skybox _ _
        cases hrb : (if hit.material.is_transparent = true then
            (match refract sqrtq d hit.normal
                hit.material.refractive_index with
             | some refr_dir =>
               some (cast_ray_optimized_recursive sqrtq diorama floor lights
                 tex skybox (vsub hit.point (vsmul (1/1000) hit.normal))
                 refr_dir n)
             | none => none) else none) with
        | none => simp only []; omega
        | some q =>
          have hq : q.2 ≤ 2 ^ (n + 1) - 2 := by
            split_ifs at hrb with ht
            · cases hrf : refract sqrtq d hit.normal
                  hit.material.refractive_index with
              | some rd =>
                rw [hrf] at hrb
                simp only [Option.some.injEq] at hrb
                rw [← hrb]
                exact IH sqrtq diorama floor lights tex skybox _ rd
              | none => exact Option.noConfusion (hrf ▸ hrb)
          simp only []
          omega

/-- C3 (amended): the recursion terminates with at most `2^(D+1) - 2`
recursive sub-calls from starting depth `D` (binary branching over depth
levels `D-1 .. 0`; the claimed `2^D` holds only for `D <= 1`), and at depth 0
the sky sample for the given direction is returned with no geometry test
(zero sub-calls, before any intersection code runs). -/
theorem c3_amended :
    (∀ (sqrtq : ℚ → ℚ) (diorama : OptimizedDiorama) (floor : Plane)
      (lights : List Light) (tex : TexPack) (skybox : Option Skybox)
      (o d : Vec3Q) (depth : ℕ),
      (cast_ray_optimized_recursive sqrtq diorama floor lights tex skybox o d
        depth).2 ≤ 2 ^ (depth + 1) - 2) ∧
    (∀ (sqrtq : ℚ → ℚ) (diorama : OptimizedDiorama) (floor : Plane)
      (lights : List Light) (tex : TexPack) (skybox : Option Skybox)
      (o d : Vec3Q),
      cast_ray_optimized_recursive sqrtq diorama floor lights tex skybox o d 0
        = (sample_sky sqrtq skybox d, 0)) :=
  ⟨fun sqrtq diorama floor lights tex skybox o d depth =>
    castSubcalls_le depth sqrtq diorama floor lights tex skybox o d,
   fun _ _ _ _ _ _ _ _ => rfl⟩

/-- If any listed axis is parallel for the ray and the origin lies outside
that axis's slab, the whole slab loop reports no intersection. -/
theorem slabGo_of_parallel_outside :
    ∀ (l : List SlabAxis) (i : ℕ) (ax : SlabAxis) (a b : XQ),
      l.get? i = some ax → |ax.d| < 1/1000000 →
      (ax.o < ax.lo ∨ ax.hi < ax.o) → slabGo l a b = none := by
  intro l
  induction l with
  | nil => intro i ax a b h _ _; simp at h
  | cons hd tl IH =>
    intro i ax a b hget hpar hout
    match i with
    | 0 =>
      simp only [List.get?_cons_zero, Option.some.injEq] at hget
      subst hget
      rw [slabGo, if_pos hpar, if_pos hout]
    | i + 1 =>
      have hg : tl.get? i = some ax := by simpa using hget
      rw [slabGo]
      simp only []
      split_ifs with h1 h2 h3
      · rfl
      · exact IH i ax a b hg hpar hout
      · rfl
      · exact IH i ax _ _ hg hpar hout

/-- A parallel axis whose slab contains the origin contributes nothing: the
slab loop computes the same result with that axis removed from the list. -/
theorem slabGo_eraseIdx_parallel_inside :
    ∀ (l : List SlabAxis) (i : ℕ) (ax : SlabAxis) (a b : XQ),
      l.get? i = some ax → |ax.d| < 1/1000000 →
      ¬ (ax.o < ax.lo ∨ ax.hi < ax.o) →
      slabGo l a b = slabGo (l.eraseIdx i) a b := by
  intro l
  induction l with
  | nil => intro i ax a b h _ _; simp at h
  | cons hd tl IH =>
    intro i ax a b hget hpar hin
    match i with
    | 0 =>
      simp only [List.get?_cons_zero, Option.some.injEq] at hget
      subst hget
      rw [List.eraseIdx_cons_zero, slabGo, if_pos hpar, if_neg hin]
    | i + 1 =>
      have hg : tl.get? i = some ax := by simpa using hget
      rw [List.eraseIdx_cons_succ, slabGo, slabGo]
      simp only []
      split_ifs with h1 h2 h3
      · rfl
      · exact IH i ax a b hg hpar hin
      · rfl
      · exact IH i ax _ _ hg hpar hin

/-- The axis data of a cube slab test on one of the three axes. -/
def cubeAxis (c : Cube) (o d : Vec3Q) : Fin 3 → SlabAxis
  | 0 => ⟨c.min.x, c.max.x, o.x, d.x⟩
  | 1 => ⟨c.min.y, c.max.y, o.y, d.y⟩
  | 2 => ⟨c.min.z, c.max.z, o.z, d.z⟩

/-- `Cube::ray_intersect` recomputed with one axis excluded from the
slab-interval computation. -/
def ray_intersect_excluding (c : Cube) (o d : Vec3Q) (i : ℕ) : Option XQ :=
  match slabGo ((cubeAxes c o d).eraseIdx i) ⊥ ⊤ with
  | none => none
  | some (tmin, tmax) =>
    if fq 0 < tmin then some tmin
    else if fq 0 < tmax then some tmax
    else none

/-- C5: for a ray whose direction is near-zero (`|component| < 1e-6`) on one
axis, `Cube::ray_intersect` returns no intersection when the origin's
component lies outside that axis's slab, and computes the same result as the
slab test with that axis excluded when the component lies inside. -/
theorem c5_parallel_axis :
    ∀ (c : Cube) (o d : Vec3Q) (i : Fin 3),
      |(cubeAxis c o d i).d| < 1/1000000 →
        (((cubeAxis c o d i).o < (cubeAxis c o d i).lo ∨
          (cubeAxis c o d i).hi < (cubeAxis c o d i).o) →
          c.ray_intersect o d = none) ∧
        ((cubeAxis c o d i).lo ≤ (cubeAxis c o d i).o ∧
          (cubeAxis c o d i).o ≤ (cubeAxis c o d i).hi →
          c.ray_intersect o d = ray_intersect_excluding c o d i.val) := by
  intro c o d i hpar
  have hget : (cubeAxes c o d).get? i.val = some (cubeAxis c o d i) := by
    fin_cases i <;> rfl
  constructor
  · intro hout
    unfold Cube.ray_intersect
    rw [slabGo_of_parallel_outside (cubeAxes c o d) i.val _ ⊥ ⊤ hget hpar
      hout]
  · intro hin
    unfold Cube.ray_intersect ray_intersect_excluding
    rw [slabGo_eraseIdx_parallel_inside (cubeAxes c o d) i.val _ ⊥ ⊤ hget hpar
      (by rw [not_or]; exact ⟨not_lt.mpr hin.1, not_lt.mpr hin.2⟩)]

theorem c5_parallel_axis_witness :
    (Cube.new ⟨0, 0, 0⟩ 1 Material.clear_glass).ray_intersect
      ⟨0, 5, 0⟩ ⟨1, 0, 0⟩ = none ∧
    (Cube.new ⟨0, 0, 0⟩ 1 Material.clear_glass).ray_intersect
      ⟨-3, 0, 0⟩ ⟨1, 0, 0⟩ =
      ray_intersect_excluding (Cube.new ⟨0, 0, 0⟩ 1 Material.clear_glass)
        ⟨-3, 0, 0⟩ ⟨1, 0, 0⟩ 1 := by
  constructor
  · exact (c5_parallel_axis (Cube.new ⟨0, 0, 0⟩ 1 Material.clear_glass)
      ⟨0, 5, 0⟩ ⟨1, 0, 0⟩ 1 (by with_unfolding_all decide)).1
      (by with_unfolding_all decide)
  · exact (c5_parallel_axis (Cube.new ⟨0, 0, 0⟩ 1 Material.clear_glass)
      ⟨-3, 0, 0⟩ ⟨1, 0, 0⟩ 1 (by with_unfolding_all decide)).2
      (by with_unfolding_all decide)

/-- The slab interval as §4.1 of the spec words it: process all three axes,
maintaining the running interval, with a parallel axis either rejecting the
ray (origin outside the slab) or leaving the interval untouched; no early
exit on an empty interval. -/
def specSlabInterval : List SlabAxis → XQ → XQ → Option (XQ × XQ)
  | [], tmin, tmax => some (tmin, tmax)
  | a :: rest, tmin, tmax =>
    if |a.d| < 1/1000000 then
      if a.o < a.lo ∨ a.hi < a.o then none
      else specSlabInterval rest tmin tmax
    else
      specSlabInterval rest
        (Max.max tmin (fq (Min.min ((a.lo - a.o) / a.d) ((a.hi - a.o) / a.d))))
        (Min.min tmax (fq (Max.max ((a.lo - a.o) / a.d) ((a.hi - a.o) / a.d))))

/-- The spec-side interval only shrinks the running interval. -/
theorem specSlabInterval_bounds :
    ∀ (l : List SlabAxis) (a b tn tf : XQ),
      specSlabInterval l a b = some (tn, tf) → a ≤ tn ∧ tf ≤ b := by
  intro l
  induction l with
  | nil =>
    intro a b tn tf h
    simp only [specSlabInterval, Option.some.injEq, Prod.mk.injEq] at h
    rw [← h.1, ← h.2]
    exact ⟨le_refl _, le_refl _⟩
  | cons hd tl IH =>
    intro a b tn tf h
    rw [specSlabInterval] at h
    split_ifs at h with h1 h2
    · exact IH a b tn tf h
    · have := IH _ _ tn tf h
      exact ⟨le_trans (le_max_left _ _) this.1,
        le_trans this.2 (min_le_left _ _)⟩

/-- The loop of `Cube::ray_intersect` computes exactly the spec-side
interval, with the early exit on an empty interval folded into the final
emptiness check (the interval only shrinks, so exiting early and checking at
the end agree). -/
theorem slabGo_eq_spec :
    ∀ (l : List SlabAxis) (a b : XQ), a ≤ b →
      slabGo l a b = (match specSlabInterval l a b with
        | none => none
        | some (tn, tf) => if tf < tn then none else some (tn, tf)) := by
  intro l
  induction l with
  | nil =>
    intro a b hab
    simp only [slabGo, specSlabInterval]
    rw [if_neg (not_lt.mpr hab)]
  | cons hd tl IH =>
    intro a b hab
    rw [slabGo, specSlabInterval]
    simp only []
    split_ifs with h1 h2 h3
    · rfl
    · exact IH a b hab
    · rcases hs : specSlabInterval tl
          (Max.max a (fq (Min.min ((hd.lo - hd.o) / hd.d)
            ((hd.hi - hd.o) / hd.d))))
          (Min.min b (fq (Max.max ((hd.lo - hd.o) / hd.d)
            ((hd.hi - hd.o) / hd.d)))) with _ | ⟨tn, tf⟩
      · rfl
      · have hb := specSlabInterval_bounds tl _ _ tn tf hs
        simp only []
        rw [if_pos (lt_of_le_of_lt hb.2 (lt_of_lt_of_le h3 hb.1))]
    · exact IH _ _ (not_lt.mp h3)

/-- `Cube::ray_intersect` as §4.1 of the spec words it: an intersection
exists iff the final interval satisfies `t_min <= t_max` (with the parallel
axis rule applied on the way), returning `t_min` if positive, else `t_max`
if positive, else none. -/
def cubeRayIntersectSpec (c : Cube) (o d : Vec3Q) : Option XQ :=
  match specSlabInterval (cubeAxes c o d) ⊥ ⊤ with
  | none => none
  | some (tmin, tmax) =>
    if tmin ≤ tmax then
      if fq 0 < tmin then some tmin
      else if fq 0 < tmax then some tmax
      else none
    else none

/-- C4: `Cube::ray_intersect` implements the slab method exactly as the spec
states it, and on the unit cube at the origin the ray from `(0,0,5)` toward
`(0,0,-1)` hits at distance `4.5` with normal `(0,0,1)`. -/
theorem c4_slab_method :
    (∀ (c : Cube) (o d : Vec3Q), c.ray_intersect o d =
      cubeRayIntersectSpec c o d) ∧
    (Cube.ray_intersect (Cube.new ⟨0, 0, 0⟩ 1 Material.clear_glass)
      ⟨0, 0, 5⟩ ⟨0, 0, -1⟩ = some (fq (9/2))) ∧
    (Cube.get_normal (Cube.new ⟨0, 0, 0⟩ 1 Material.clear_glass)
      ⟨0, 0, 1/2⟩ = ⟨0, 0, 1⟩) := by
  refine ⟨?_, by with_unfolding_all decide, by with_unfolding_all decide⟩
  intro c o d
  unfold Cube.ray_intersect cubeRayIntersectSpec
  rw [slabGo_eq_spec (cubeAxes c o d) ⊥ ⊤ bot_le]
  rcases specSlabInterval (cubeAxes c o d) ⊥ ⊤ with _ | ⟨tn, tf⟩
  · rfl
  · simp only []
    by_cases hle : tn ≤ tf
    · rw [if_neg (not_lt.mpr hle), if_pos hle]
    · rw [if_pos (not_le.mp hle), if_neg hle]

/-- C6: the three material predicates are pure functions of the stored tag
and specular value — emissive iff Lava; transparent iff Glass or Water;
reflective iff `specular > 50` or the tag is Water, Metal or Obsidian. -/
theorem c6_material_predicates :
    ∀ m : Material,
      (m.is_emissive = true ↔ m.material_type = MaterialType.Lava) ∧
      (m.is_transparent = true ↔
        (m.material_type = MaterialType.Glass ∨
         m.material_type = MaterialType.Water)) ∧
      (m.is_reflective = true ↔
        (50 < m.specular ∨ m.material_type = MaterialType.Water ∨
         m.material_type = MaterialType.Metal ∨
         m.material_type = MaterialType.Obsidian)) := by
  intro m
  obtain ⟨df, sp, al, ri, ht, mt⟩ := m
  refine ⟨?_, ?_, ?_⟩ <;> cases mt <;>
    simp [Material.is_emissive, Material.is_transparent,
      Material.is_reflective]

/-- C7: `OptimizedDiorama::new` is a pure function of its arguments — two
calls with identical center and cube size produce identical primitive lists:
the same cube count, the same corner points at each index, and the same
material tags in the same order. -/
theorem c7_determinism :
    ∀ (center : Vec3Q) (cube_size : ℚ),
      (OptimizedDiorama.new center cube_size).cubes.length =
        (OptimizedDiorama.new center cube_size).cubes.length ∧
      (OptimizedDiorama.new center cube_size).cubes.map Cube.min =
        (OptimizedDiorama.new center cube_size).cubes.map Cube.min ∧
      (OptimizedDiorama.new center cube_size).cubes.map Cube.max =
        (OptimizedDiorama.new center cube_size).cubes.map Cube.max ∧
      (OptimizedDiorama.new center cube_size).cubes.map
          (fun c => c.material.material_type) =
        (OptimizedDiorama.new center cube_size).cubes.map
          (fun c => c.material.material_type) :=
  fun _ _ => ⟨rfl, rfl, rfl, rfl⟩

/-- The height rules exactly as claim C8 words them (the "Euclidean distance
below 2.5 / 5.5" conditions are written on squared distances, which is
equivalent for non-negative quantities). -/
def c8SpecHeight (grid_size x z : ℕ) : ℕ :=
  if x < 6 then
    if x = 0 ∨ z = 0 then 6
    else if x = 1 ∨ z = 1 then 5
    else if x = 2 ∨ z = 2 then 4
    else 3
  else if x < 12 then
    if 8 ≤ x ∧ x ≤ 10 ∧ grid_size - 4 ≤ z ∧ z ≤ grid_size - 2 then 2 else 3
  else if x = 12 ∨ x = 13 then 3
  else
    4 + (x + 2 * z) % 2 +
      (if ((x : ℚ) - 17) ^ (2 : ℕ) + ((z : ℚ) - 12) ^ (2 : ℕ)
          < (5/2) ^ (2 : ℕ) then 2
       else if ((x : ℚ) - 17) ^ (2 : ℕ) + ((z : ℚ) - 12) ^ (2 : ℕ)
          < (11/2) ^ (2 : ℕ) then 1
       else 0)

/-- C8: `generate_terrain_heights` at grid size 18 assigns every cell exactly
the height of the claim's zone rules (rows are indexed `[z][x]`). -/
theorem c8_terrain_heights :
    ∀ x < 18, ∀ z < 18,
      ((generate_terrain_heights 18).getD z []).getD x 0 =
        c8SpecHeight 18 x z := by
  with_unfolding_all decide

theorem c8_terrain_heights_witness :
    ((generate_terrain_heights 18).getD 12 []).getD 17 0 =
      c8SpecHeight 18 17 12 :=
  c8_terrain_heights 17 (by norm_num) 12 (by norm_num)

/-- C9: the Fresnel factor actually used in blending is clamped into [0, 1],
`Color::from_vec3` saturates every channel into [0, 255], and every color the
ray caster returns has all channels within [0, 255]. -/
theorem c9_kr_and_channel_bounds :
    (∀ (incident normal : Vec3Q) (ior : ℚ),
      0 ≤ clampQ (fresnel incident normal ior) 0 1 ∧
        clampQ (fresnel incident normal ior) 0 1 ≤ 1) ∧
    (∀ v : Vec3Q, (Color.from_vec3 v).r.val ≤ 255 ∧
      (Color.from_vec3 v).g.val ≤ 255 ∧ (Color.from_vec3 v).b.val ≤ 255) ∧
    (∀ (sqrtq : ℚ → ℚ) (diorama : OptimizedDiorama) (floor : Plane)
      (lights : List Light) (tex : TexPack) (skybox : Option Skybox)
      (o d : Vec3Q) (depth : ℕ),
      (cast_ray_optimized_recursive sqrtq diorama floor lights tex skybox o d
        depth).1.r.val ≤ 255 ∧
      (cast_ray_optimized_recursive sqrtq diorama floor lights tex skybox o d
        depth).1.g.val ≤ 255 ∧
      (cast_ray_optimized_recursive sqrtq diorama floor lights tex skybox o d
        depth).1.b.val ≤ 255) := by
  refine ⟨?_, ?_, ?_⟩
  · intro incident normal ior
    exact ⟨le_min (le_max_right _ _) zero_le_one, min_le_right _ _⟩
  · intro v
    exact ⟨Nat.lt_succ_iff.mp (Fin.isLt _), Nat.lt_succ_iff.mp (Fin.isLt _),
      Nat.lt_succ_iff.mp (Fin.isLt _)⟩
  · intro sqrtq diorama floor lights tex skybox o d depth
    exact ⟨Nat.lt_succ_iff.mp (Fin.isLt _), Nat.lt_succ_iff.mp (Fin.isLt _),
      Nat.lt_succ_iff.mp (Fin.isLt _)⟩

/-- Any sequence of camera operations keeps a distance that is within
[1, 20] inside [1, 20]: `zoom` re-clamps, `orbit` leaves it unchanged. -/
theorem applyOps_bounds :
    ∀ (ops : List CamOp) (c : OrbitCamera),
      1 ≤ c.distance → c.distance ≤ 20 →
      1 ≤ (applyOps c ops).distance ∧ (applyOps c ops).distance ≤ 20 := by
  intro ops
  induction ops with
  | nil => intro c h1 h2; exact ⟨h1, h2⟩
  | cons op rest IH =>
    intro c h1 h2
    cases op with
    | zoomBy delta =>
      exact IH _ (le_min (le_max_right _ _) (by norm_num)) (min_le_right _ _)
    | orbitBy dy dp => exact IH _ h1 h2

/-- C10: `OrbitCamera::zoom` clamps the orbit distance into [1, 20]; `orbit`
never touches it; every subsequent operation sequence preserves the bound;
and (over the reals, by the spherical-coordinate identity) the eye of a
camera with distance at least 1 sits exactly `distance >= 1` world units from
the target.  The spec never states this clamp. -/
theorem c10_zoom_distance_clamp :
    (∀ (c : OrbitCamera) (delta : ℚ),
      1 ≤ (c.zoom delta).distance ∧ (c.zoom delta).distance ≤ 20) ∧
    (∀ (c : OrbitCamera) (dy dp : ℚ),
      (c.orbit dy dp).distance = c.distance) ∧
    (∀ (c : OrbitCamera) (delta : ℚ) (ops : List CamOp),
      1 ≤ (applyOps (c.zoom delta) ops).distance ∧
        (applyOps (c.zoom delta) ops).distance ≤ 20) ∧
    (∀ (c : OrbitCamera), 1 ≤ c.distance →
      Real.sqrt (eyeOffsetNormSq (c.distance : ℝ) (c.yaw : ℝ)
        (c.pitch : ℝ)) = (c.distance : ℝ) ∧
      (1 : ℝ) ≤ Real.sqrt (eyeOffsetNormSq (c.distance : ℝ) (c.yaw : ℝ)
        (c.pitch : ℝ))) := by
  refine ⟨?_, ?_, ?_, ?_⟩
  · intro c delta
    exact ⟨le_min (le_max_right _ _) (by norm_num), min_le_right _ _⟩
  · intro c dy dp
    rfl
  · intro c delta ops
    exact applyOps_bounds ops _ (le_min (le_max_right _ _) (by norm_num))
      (min_le_right _ _)
  · intro c h1
    have h1R : (1 : ℝ) ≤ (c.distance : ℝ) := by exact_mod_cast h1
    have hd : (0 : ℝ) ≤ (c.distance : ℝ) := by linarith
    have hsq : eyeOffsetNormSq (c.distance : ℝ) (c.yaw : ℝ) (c.pitch : ℝ)
        = (c.distance : ℝ) ^ 2 := by
      unfold eyeOffsetNormSq eyeOffset
      simp only []
      have hy := Real.sin_sq_add_cos_sq (c.yaw : ℝ)
      have hp := Real.sin_sq_add_cos_sq (c.pitch : ℝ)
      nlinarith [hy, hp, sq_nonneg ((c.distance : ℝ) * Real.cos (c.pitch : ℝ))]
    rw [hsq, Real.sqrt_sq hd]
    exact ⟨rfl, h1R⟩

theorem c10_zoom_distance_clamp_witness :
    (1 ≤ (applyOps (OrbitCamera.zoom ⟨⟨0, 2, 0⟩, 10, 0, 0⟩ (-6/10))
        [CamOp.orbitBy (8/10) (4/10), CamOp.zoomBy 100]).distance ∧
      (applyOps (OrbitCamera.zoom ⟨⟨0, 2, 0⟩, 10, 0, 0⟩ (-6/10))
        [CamOp.orbitBy (8/10) (4/10), CamOp.zoomBy 100]).distance ≤ 20) ∧
    Real.sqrt (eyeOffsetNormSq ((10 : ℚ) : ℝ) ((0 : ℚ) : ℝ) ((0 : ℚ) : ℝ))
      = ((10 : ℚ) : ℝ) :=
  ⟨(c10_zoom_distance_clamp.2.2.1 ⟨⟨0, 2, 0⟩, 10, 0, 0⟩ (-6/10)
      [CamOp.orbitBy (8/10) (4/10), CamOp.zoomBy 100]),
   (c10_zoom_distance_clamp.2.2.2 ⟨⟨0, 2, 0⟩, 10, 0, 0⟩
      (by norm_num)).1⟩
